import Mathlib

/-!
# Verification of the CubeAI-FlowDecompose video-shooting-assistant pipeline

Shallow embedding of the Python sources (`src/Backend/phone_ai` and
`src/phone_ai`) in Lean 4, together with proofs of the specification
claims.  Machine floats are modelled by exact rationals `ℚ` (and by `ℝ`
for the two routines that use `math.sqrt` / `math.exp`); fallible code
returns `Except`.
-/

set_option maxHeartbeats 1000000

namespace FlowDecompose

/-! ## Enums (`src/models/enums.py`) -/

/-- Camera motion categories (`MotionType`). -/
inductive MotionType where
  | static
  | pan
  | tilt
  | dollyIn
  | dollyOut
  | track
  | handheld
  deriving DecidableEq, Repr

/-- Speed profiles (`SpeedProfile`). -/
inductive SpeedProfile where
  | linear
  | easeIn
  | easeOut
  | easeInOut
  deriving DecidableEq, Repr

/-- Suggested framing scales (`SuggestedScale`). -/
inductive SuggestedScale where
  | extremeCloseup
  | closeup
  | medium
  | wide
  deriving DecidableEq, Repr

/-! ## Data model (`src/models/data_types.py`), generic over the number type -/

/-- Normalized bounding box (`BBox`). -/
structure BBox (α : Type) where
  x : α
  y : α
  w : α
  h : α
  deriving DecidableEq, Repr

/-- `BBox.area`: the area `w * h`. -/
def BBox.area {α : Type} [LinearOrderedField α] (b : BBox α) : α :=
  b.w * b.h

/-- `BBox.is_valid`: all coordinates in `[0,1]`, box inside the frame. -/
def BBox.isValid {α : Type} [LinearOrderedField α] (b : BBox α) : Prop :=
  0 ≤ b.x ∧ b.x ≤ 1 ∧ 0 ≤ b.y ∧ b.y ≤ 1 ∧ 0 ≤ b.w ∧ b.w ≤ 1 ∧
    0 ≤ b.h ∧ b.h ≤ 1 ∧ b.x + b.w ≤ 1 ∧ b.y + b.h ≤ 1

instance {α : Type} [LinearOrderedField α] (b : BBox α) :
    Decidable b.isValid := by
  unfold BBox.isValid; infer_instance

/-- `BBox.normalize`: clamp all values to valid ranges. -/
def BBox.normalize {α : Type} [LinearOrderedField α] (b : BBox α) : BBox α :=
  let x := max 0 (min 1 b.x)
  let y := max 0 (min 1 b.y)
  let w := max 0 (min (1 - x) b.w)
  let h := max 0 (min (1 - y) b.h)
  ⟨x, y, w, h⟩

/-- Optical flow analysis results (`OpticalFlowData`). -/
structure OpticalFlowData (α : Type) where
  avgSpeedPxS : α
  primaryDirectionDeg : α
  flowVectors : List (α × α)
  deriving Repr

/-- Subject detection and tracking results (`SubjectTrackingData`). -/
structure SubjectTrackingData (α : Type) where
  bboxSequence : List (BBox α)
  confidenceScores : List α
  timestamps : List α
  deriving Repr

/-- Output schema of the Feature Extractor Agent (`FeatureOutput`).
`keypoints` and `frame_embeddings` do not influence any analyzed claim
and are omitted from the record. -/
structure FeatureOutput (α : Type) where
  videoId : String
  opticalFlow : OpticalFlowData α
  subjectTracking : SubjectTrackingData α
  audioBeats : Option (List α)
  deriving Repr

/-- Output schema of the Heuristic Analyzer Agent (`HeuristicOutput`). -/
structure HeuristicOutput (α : Type) where
  videoId : String
  timeRange : α × α
  avgMotionPxPerS : α
  framePctChange : α
  motionSmoothness : α
  subjectOccupancy : α
  beatAlignmentScore : α
  deriving Repr

/-- `HeuristicOutput.is_valid`: all indicators in valid ranges. -/
def HeuristicOutput.isValid {α : Type} [LinearOrderedField α]
    (o : HeuristicOutput α) : Prop :=
  o.avgMotionPxPerS ≥ 0 ∧
    0 ≤ o.framePctChange ∧ o.framePctChange ≤ 1 ∧
    0 ≤ o.motionSmoothness ∧ o.motionSmoothness ≤ 1 ∧
    0 ≤ o.subjectOccupancy ∧ o.subjectOccupancy ≤ 1 ∧
    0 ≤ o.beatAlignmentScore ∧ o.beatAlignmentScore ≤ 1 ∧
    o.timeRange.1 ≥ 0 ∧ o.timeRange.1 < o.timeRange.2

instance {α : Type} [LinearOrderedField α] (o : HeuristicOutput α) :
    Decidable o.isValid := by
  unfold HeuristicOutput.isValid; infer_instance

/-! ## Motion rules (`src/agents/motion_rules.py`), over `ℚ` -/

/-- Configuration for motion type inference rules (`MotionRulesConfig`). -/
structure MotionRulesConfig where
  staticThreshold : ℚ := 5
  slowMotionThreshold : ℚ := 50
  fastMotionThreshold : ℚ := 200
  dollyThreshold : ℚ := 5/100
  significantChangeThreshold : ℚ := 15/100
  horizontalTolerance : ℚ := 30
  verticalTolerance : ℚ := 30
  handheldSmoothnessThreshold : ℚ := 1/2
  extremeCloseupThreshold : ℚ := 1/2
  closeupThreshold : ℚ := 25/100
  mediumThreshold : ℚ := 1/10
  deriving Repr

/-- The default `MotionRulesConfig()`. -/
def MotionRulesConfig.default : MotionRulesConfig := {}

/-- Python's `%` on rationals: `x % m` has the sign of `m` (for `m > 0`
the result lies in `[0, m)`); used for `primary_direction_deg % 360`. -/
def pymod (x m : ℚ) : ℚ := x - m * ⌊x / m⌋

/-- `MotionTypeInferrer._is_horizontal`: direction primarily horizontal. -/
def isHorizontal (cfg : MotionRulesConfig) (direction : ℚ) : Bool :=
  let tol := cfg.horizontalTolerance
  direction < tol ∨ direction > 360 - tol ∨ |direction - 180| < tol

/-- `MotionTypeInferrer._is_vertical`: direction primarily vertical. -/
def isVertical (cfg : MotionRulesConfig) (direction : ℚ) : Bool :=
  let tol := cfg.verticalTolerance
  |direction - 90| < tol ∨ |direction - 270| < tol

/-- Rules 4–7 of `MotionTypeInferrer.infer_motion_type`: the shared
continuation reached whenever rule 3 (dolly) does not return. -/
def inferMotionTypeRest (cfg : MotionRulesConfig) (h : HeuristicOutput ℚ)
    (primaryDirectionDeg : Option ℚ) : MotionType :=
  -- Rules 4 & 5: pan / tilt by direction
  match primaryDirectionDeg with
  | some deg =>
    if isHorizontal cfg (pymod deg 360) then MotionType.pan
    else if isVertical cfg (pymod deg 360) then MotionType.tilt
    -- Rule 6: tracking shot
    else if h.subjectOccupancy > 1/10 ∧
        h.avgMotionPxPerS > cfg.slowMotionThreshold ∧
        h.motionSmoothness > 6/10 then MotionType.track
    -- Default
    else if h.avgMotionPxPerS > cfg.slowMotionThreshold then MotionType.handheld
    else MotionType.static
  | none =>
    if h.subjectOccupancy > 1/10 ∧
        h.avgMotionPxPerS > cfg.slowMotionThreshold ∧
        h.motionSmoothness > 6/10 then MotionType.track
    else if h.avgMotionPxPerS > cfg.slowMotionThreshold then MotionType.handheld
    else MotionType.static

/-- `MotionTypeInferrer.infer_motion_type`.  Python's sequence of early
returns is rendered as nested `if`s falling through to the shared
continuation `inferMotionTypeRest`. -/
def inferMotionType (cfg : MotionRulesConfig) (h : HeuristicOutput ℚ)
    (primaryDirectionDeg : Option ℚ) : MotionType :=
  -- Rule 1: static
  if h.avgMotionPxPerS < cfg.staticThreshold then MotionType.static
  -- Rule 2: handheld (low smoothness)
  else if h.motionSmoothness < cfg.handheldSmoothnessThreshold then
    MotionType.handheld
  -- Rule 3: dolly movement (significant size change)
  else if h.framePctChange > cfg.dollyThreshold then
    if h.framePctChange > cfg.significantChangeThreshold then
      if h.subjectOccupancy > 3/10 then MotionType.dollyIn
      else MotionType.dollyOut
    else inferMotionTypeRest cfg h primaryDirectionDeg
  else inferMotionTypeRest cfg h primaryDirectionDeg

/-- `MotionTypeInferrer.infer_speed_profile`. -/
def inferSpeedProfile (h : HeuristicOutput ℚ) (motionType : MotionType) :
    SpeedProfile :=
  if motionType = MotionType.static then SpeedProfile.linear
  else if motionType = MotionType.handheld then SpeedProfile.linear
  else if h.motionSmoothness > 8/10 then SpeedProfile.easeInOut
  else if h.motionSmoothness > 6/10 then
    if h.framePctChange > 1/10 then SpeedProfile.easeIn
    else SpeedProfile.easeOut
  else SpeedProfile.linear

/-- `MotionTypeInferrer.calculate_confidence`: base confidence `0.5`
accumulated with the four independent adjustments of the Python code
(each `confidence +=`/`-=` rendered as an added term), then clamped. -/
def calculateConfidence (cfg : MotionRulesConfig) (h : HeuristicOutput ℚ)
    (motionType : MotionType) : ℚ :=
  max 0 (min 1
    (1/2
      + (if motionType = MotionType.static ∧
            h.avgMotionPxPerS < cfg.staticThreshold then 3/10 else 0)
      + (if h.motionSmoothness > 7/10 then 15/100
         else if h.motionSmoothness > 1/2 then 1/10 else 0)
      + (if (motionType = MotionType.dollyIn ∨
              motionType = MotionType.dollyOut) ∧
            h.framePctChange > cfg.significantChangeThreshold then 2/10
         else 0)
      - (if h.motionSmoothness < 3/10 then 1/10 else 0)))

/-! ### Claim C1: the decision tree of the spec, written from its words -/

/-- Modelled from the spec's words: the normalized direction is within
`30°` of `0°` or `180°` (on the circle, `0°` and `360°` coincide). -/
def specWithin30OfHorizontal (deg : ℚ) : Prop :=
  |pymod deg 360 - 0| < 30 ∨ |pymod deg 360 - 360| < 30 ∨
    |pymod deg 360 - 180| < 30

/-- Modelled from the spec's words: the normalized direction is within
`30°` of `90°` or `270°`. -/
def specWithin30OfVertical (deg : ℚ) : Prop :=
  |pymod deg 360 - 90| < 30 ∨ |pymod deg 360 - 270| < 30

instance (deg : ℚ) : Decidable (specWithin30OfHorizontal deg) := by
  unfold specWithin30OfHorizontal; infer_instance

instance (deg : ℚ) : Decidable (specWithin30OfVertical deg) := by
  unfold specWithin30OfVertical; infer_instance

instance (d : Option ℚ) : Decidable (d.elim False specWithin30OfHorizontal) :=
  match d with
  | none => isFalse id
  | some deg => inferInstanceAs (Decidable (specWithin30OfHorizontal deg))

instance (d : Option ℚ) : Decidable (d.elim False specWithin30OfVertical) :=
  match d with
  | none => isFalse id
  | some deg => inferInstanceAs (Decidable (specWithin30OfVertical deg))

/-- The first-match decision tree exactly as the spec states it
(refinement reference for claim C1; compare with `inferMotionType`). -/
def specMotionType (h : HeuristicOutput ℚ) (primaryDirectionDeg : Option ℚ) :
    MotionType :=
  if h.avgMotionPxPerS < 5 then MotionType.static
  else if h.motionSmoothness < 1/2 then MotionType.handheld
  else if h.framePctChange > 15/100 then
    if h.subjectOccupancy > 3/10 then MotionType.dollyIn else MotionType.dollyOut
  else if primaryDirectionDeg.elim False specWithin30OfHorizontal then
    MotionType.pan
  else if primaryDirectionDeg.elim False specWithin30OfVertical then
    MotionType.tilt
  else if h.subjectOccupancy > 1/10 ∧ h.avgMotionPxPerS > 50 ∧
      h.motionSmoothness > 6/10 then MotionType.track
  else if h.avgMotionPxPerS > 50 then MotionType.handheld
  else MotionType.static

/-- Unfolding `|x| < c` over `ℚ` (restatement of `abs_lt` keeping the
arithmetic operations in the file's canonical form). -/
theorem rat_abs_lt (x c : ℚ) : |x| < c ↔ -c < x ∧ x < c := abs_lt

/-- `pymod x 360` lies in `[0, 360)`. -/
theorem pymod_nonneg_lt (x : ℚ) : 0 ≤ pymod x 360 ∧ pymod x 360 < 360 := by
  unfold pymod
  constructor
  · have h := Int.floor_le (x / 360)
    nlinarith [h]
  · have h := Int.lt_floor_add_one (x / 360)
    nlinarith [h]

/-- On `[0,360)` the code's `_is_horizontal` test coincides with the
spec's "within 30° of 0/180". -/
theorem isHorizontal_iff_spec (deg : ℚ) :
    isHorizontal .default (pymod deg 360) = true ↔
      specWithin30OfHorizontal deg := by
  obtain ⟨h0, h1⟩ := pymod_nonneg_lt deg
  unfold isHorizontal specWithin30OfHorizontal MotionRulesConfig.default
  generalize hgen : pymod deg 360 = d at h0 h1 ⊢
  simp only [decide_eq_true_eq, sub_zero, rat_abs_lt]
  clear hgen
  constructor
  · rintro (h | h | h)
    · exact Or.inl ⟨by linarith, h⟩
    · replace h := show (330 : ℚ) < d by
        linarith [show (360 - 30 : ℚ) < d from h]
      refine Or.inr (Or.inl ⟨show (-30 : ℚ) < d - 360 by linarith,
        show d - 360 < 30 by linarith⟩)
    · exact Or.inr (Or.inr h)
  · rintro (h | h | h)
    · exact Or.inl h.2
    · have ha := show (-30 : ℚ) < d - 360 from h.1
      exact Or.inr (Or.inl (show (360 : ℚ) - 30 < d by linarith))
    · exact Or.inr (Or.inr h)

/-- On `[0,360)` the code's `_is_vertical` test coincides with the
spec's "within 30° of 90/270". -/
theorem isVertical_iff_spec (deg : ℚ) :
    isVertical .default (pymod deg 360) = true ↔
      specWithin30OfVertical deg := by
  unfold isVertical specWithin30OfVertical MotionRulesConfig.default
  generalize hgen : pymod deg 360 = d
  simp only [decide_eq_true_eq]

/-- C1: with the default rule configuration, `infer_motion_type` computes
exactly the spec's first-match decision tree, for every indicator record
and every optional primary direction. -/
theorem c1_infer_motion_type_matches_spec (h : HeuristicOutput ℚ)
    (dir : Option ℚ) :
    inferMotionType .default h dir = specMotionType h dir := by
  cases dir with
  | none =>
    unfold inferMotionType inferMotionTypeRest specMotionType
    simp only [Option.elim, MotionRulesConfig.default]
    split_ifs <;> first | rfl | (exfalso; first | assumption | linarith)
  | some deg =>
    unfold inferMotionType inferMotionTypeRest specMotionType
    simp only [Option.elim, ← isHorizontal_iff_spec deg,
      ← isVertical_iff_spec deg, MotionRulesConfig.default]
    split_ifs <;> first | rfl | (exfalso; first | assumption | linarith)


/-! ## Hysteresis controller (`src/realtime/hysteresis.py`) -/

/-- Per-category hysteresis level (`"normal"` / `"warning"` /
`"critical"` strings in the Python dictionary). -/
inductive HLevel where
  | normal
  | warning
  | critical
  deriving DecidableEq, Repr

/-- `HysteresisController.check_threshold`: one update of the tracked
state of a category.  Any non-`normal` stored state takes the
`else` branch of the Python code. -/
def checkThreshold (state : HLevel) (value enterThreshold exitThreshold : ℚ)
    (lowerIsWorse : Bool) : HLevel :=
  if lowerIsWorse then
    if state = HLevel.normal then
      if value < enterThreshold then HLevel.warning else HLevel.normal
    else
      if value > exitThreshold then HLevel.normal else HLevel.warning
  else
    if state = HLevel.normal then
      if value > enterThreshold then HLevel.warning else HLevel.normal
    else
      if value < exitThreshold then HLevel.normal else HLevel.warning

/-- `HysteresisController.check_threshold_multi_level`: one update of the
three-level tracked state of a category. -/
def checkThresholdMultiLevel (state : HLevel) (value : ℚ)
    (criticalEnter criticalExit warningEnter warningExit : ℚ)
    (lowerIsWorse : Bool) : HLevel :=
  if lowerIsWorse then
    if state = HLevel.critical then
      if value > criticalExit then
        if value < warningExit then HLevel.warning else HLevel.normal
      else HLevel.critical
    else if state = HLevel.warning then
      if value < criticalEnter then HLevel.critical
      else if value > warningExit then HLevel.normal
      else HLevel.warning
    else
      if value < criticalEnter then HLevel.critical
      else if value < warningEnter then HLevel.warning
      else HLevel.normal
  else
    if state = HLevel.critical then
      if value < criticalExit then
        if value > warningExit then HLevel.warning else HLevel.normal
      else HLevel.critical
    else if state = HLevel.warning then
      if value > criticalEnter then HLevel.critical
      else if value < warningExit then HLevel.normal
      else HLevel.warning
    else
      if value > criticalEnter then HLevel.critical
      else if value > warningEnter then HLevel.warning
      else HLevel.normal

/-- The hysteresis band of a two-level category: the value lies strictly
between the enter and the exit threshold (oriented by the variant). -/
def twoLevelBand (enterThreshold exitThreshold : ℚ) (lowerIsWorse : Bool)
    (v : ℚ) : Prop :=
  if lowerIsWorse then enterThreshold < v ∧ v < exitThreshold
  else exitThreshold < v ∧ v < enterThreshold

/-- The hysteresis band of the level currently relevant for a three-level
category: the critical band while in `critical`, the warning band
otherwise. -/
def multiLevelBand (state : HLevel)
    (criticalEnter criticalExit warningEnter warningExit : ℚ)
    (lowerIsWorse : Bool) (v : ℚ) : Prop :=
  match state with
  | HLevel.critical =>
    if lowerIsWorse then criticalEnter < v ∧ v < criticalExit
    else criticalExit < v ∧ v < criticalEnter
  | _ =>
    if lowerIsWorse then warningEnter < v ∧ v < warningExit
    else warningExit < v ∧ v < warningEnter

/-- An in-band value maps any two-level state to `normal` (if it was
`normal`) or `warning` (otherwise). -/
theorem checkThreshold_inBand (s : HLevel) (e x v : ℚ) (l : Bool)
    (hb : twoLevelBand e x l v) :
    checkThreshold s v e x l =
      (if s = HLevel.normal then HLevel.normal else HLevel.warning) := by
  unfold checkThreshold twoLevelBand at *
  cases l <;> simp only [Bool.false_eq_true, if_true, if_false,
    reduceCtorEq, ite_false, ite_true] at hb ⊢ <;>
    obtain ⟨hb1, hb2⟩ := hb <;>
    split_ifs <;> first | rfl | (exfalso; first | assumption | linarith)

/-- An in-band value never moves the three-level state, provided the
critical thresholds are at least as strict as the warning thresholds. -/
theorem checkThresholdMultiLevel_inBand (s : HLevel)
    (cE cX wE wX v : ℚ) (l : Bool)
    (hord : if l then cE ≤ wE else wE ≤ cE)
    (hb : multiLevelBand s cE cX wE wX l v) :
    checkThresholdMultiLevel s v cE cX wE wX l = s := by
  unfold checkThresholdMultiLevel multiLevelBand at *
  cases l <;> cases s <;>
    simp only [Bool.false_eq_true, if_true, if_false, reduceCtorEq,
      ite_false, ite_true] at hord hb ⊢ <;>
    obtain ⟨hb1, hb2⟩ := hb <;>
    split_ifs <;> first | rfl | (exfalso; first | assumption | linarith)

/-- C3 (amended): hysteresis cannot oscillate.  Two-level form, for
every threshold pair: once the first update has been applied, a stream
of values each strictly inside the hysteresis band never changes the
tracked level again.  Three-level form, for every threshold tuple whose
critical thresholds are at least as strict as its warning thresholds
(`critical_enter <= warning_enter` when lower is worse, reversed
otherwise): a stream of values each strictly inside the band of the
current level never changes the tracked level at all.  Both hold for
the lower-is-worse and the higher-is-worse variants.  Without the
ordering restriction the three-level statement fails, see
`c3_hysteresis_counterexample`. -/
theorem c3_hysteresis_no_oscillation (e x cE cX wE wX : ℚ) (l : Bool)
    (s : HLevel) (v : ℚ) (vs : List ℚ)
    (hv : twoLevelBand e x l v)
    (hvs : ∀ u ∈ vs, twoLevelBand e x l u)
    (s3 : HLevel) (ws : List ℚ)
    (hord : if l then cE ≤ wE else wE ≤ cE)
    (hws : ∀ u ∈ ws, multiLevelBand s3 cE cX wE wX l u) :
    vs.foldl (fun st u => checkThreshold st u e x l)
        (checkThreshold s v e x l) = checkThreshold s v e x l ∧
    ws.foldl (fun st u => checkThresholdMultiLevel st u cE cX wE wX l)
        s3 = s3 := by
  constructor
  · induction vs with
    | nil => rfl
    | cons u us ih =>
      have hu := hvs u (List.mem_cons_self u us)
      have hrest : ∀ w ∈ us, twoLevelBand e x l w := fun w hw =>
        hvs w (List.mem_cons_of_mem u hw)
      have hstep : checkThreshold (checkThreshold s v e x l) u e x l =
          checkThreshold s v e x l := by
        rw [checkThreshold_inBand s e x v l hv,
          checkThreshold_inBand _ e x u l hu]
        split_ifs <;> simp_all
      simpa [List.foldl_cons, hstep] using ih hrest
  · induction ws with
    | nil => rfl
    | cons u us ih =>
      have hu := hws u (List.mem_cons_self u us)
      have hrest : ∀ w ∈ us, multiLevelBand s3 cE cX wE wX l w := fun w hw =>
        hws w (List.mem_cons_of_mem u hw)
      have hstep := checkThresholdMultiLevel_inBand s3 cE cX wE wX u l hord hu
      simpa [List.foldl_cons, hstep] using ih hrest

/-- Witness for C3 at the default stability and speed thresholds of
`HysteresisConfig`: warning band `(0.65, 0.75)` for stability
(lower-is-worse, from state `warning`), and the three-level stability
configuration from state `critical` with values inside `(0.35, 0.45)`. -/
theorem c3_hysteresis_no_oscillation_witness :
    ([7/10, 72/100] : List ℚ).foldl
        (fun st u => checkThreshold st u (65/100) (75/100) true)
        (checkThreshold HLevel.warning (7/10) (65/100) (75/100) true) =
      checkThreshold HLevel.warning (7/10) (65/100) (75/100) true ∧
    ([4/10, 42/100] : List ℚ).foldl
        (fun st u =>
          checkThresholdMultiLevel st u (35/100) (45/100) (65/100) (75/100)
            true)
        HLevel.critical = HLevel.critical := by
  apply c3_hysteresis_no_oscillation (65/100) (75/100) (35/100) (45/100)
    (65/100) (75/100) true HLevel.warning (7/10) [7/10, 72/100]
  · unfold twoLevelBand; norm_num
  · intro u hu
    unfold twoLevelBand
    simp only [List.mem_cons, List.not_mem_nil, or_false] at hu
    rcases hu with h | h <;> subst h <;> norm_num
  · norm_num
  · intro u hu
    unfold multiLevelBand
    simp only [List.mem_cons, List.not_mem_nil, or_false] at hu
    rcases hu with h | h <;> subst h <;> norm_num


/-- Counterexample to C3 as stated: with the three-level thresholds
`critical_enter = 0.7 > warning_enter = 0.65`, `warning_exit = 0.8`
(lower-is-worse), the values `0.75` and `0.68` are both strictly inside
the warning band — the band of the relevant level for a category in the
`normal` state — yet the first update keeps the level `normal` and the
second flips it to `critical`: the tracked level changes after the
first update. -/
theorem c3_hysteresis_counterexample :
    multiLevelBand HLevel.normal (7/10) (3/4) (65/100) (8/10) true (3/4) ∧
    multiLevelBand HLevel.normal (7/10) (3/4) (65/100) (8/10) true
      (68/100) ∧
    checkThresholdMultiLevel HLevel.normal (3/4) (7/10) (3/4) (65/100)
      (8/10) true = HLevel.normal ∧
    checkThresholdMultiLevel
      (checkThresholdMultiLevel HLevel.normal (3/4) (7/10) (3/4) (65/100)
        (8/10) true)
      (68/100) (7/10) (3/4) (65/100) (8/10) true = HLevel.critical ∧
    HLevel.critical ≠ HLevel.normal := by
  refine ⟨?_, ?_, ?_, ?_, by simp⟩ <;>
    norm_num [multiLevelBand, checkThresholdMultiLevel] <;> simp

/-! ## Motion state machine (`src/realtime/state_machine.py`) -/

/-- Configuration for the motion state machine
(`MotionStateMachineConfig`). -/
structure MotionStateMachineConfig where
  historySize : ℕ := 5
  minConfidenceThreshold : ℚ := 4/10
  consistencyRequired : ℕ := 2
  confidenceDecay : ℚ := 9/10
  deriving Repr

/-- The default `MotionStateMachineConfig()`. -/
def MotionStateMachineConfig.default : MotionStateMachineConfig := {}

/-- Mutable state of `MotionStateMachine`. -/
structure MachineState where
  currentState : MotionType
  stateConfidence : ℚ
  stateHistory : List MotionType
  confidenceHistory : List ℚ
  pendingState : Option MotionType
  pendingCount : ℕ
  deriving DecidableEq, Repr

/-- The state after `MotionStateMachine.__init__` (or `reset`). -/
def MachineState.init : MachineState :=
  ⟨MotionType.static, 0, [], [], none, 0⟩

/-- `deque(maxlen = n).append`: append on the right, dropping from the
left beyond `n` entries. -/
def appendBounded {α : Type} (n : ℕ) (xs : List α) (x : α) : List α :=
  let ys := xs ++ [x]
  ys.drop (ys.length - n)

/-- `MotionStateMachine._process_inference`. -/
def processInference (cfg : MotionStateMachineConfig) (s : MachineState)
    (inferredType : MotionType) (confidence : ℚ) : MachineState :=
  -- inference matches current state: EMA reinforcement
  if inferredType = s.currentState then
    { s with stateConfidence := 3/10 * confidence + 7/10 * s.stateConfidence,
             pendingState := none, pendingCount := 0 }
  -- confidence too low: decay only
  else if confidence < cfg.minConfidenceThreshold then
    { s with stateConfidence := s.stateConfidence * cfg.confidenceDecay }
  else
    -- track the pending state
    let s1 :=
      if s.pendingState = some inferredType then
        { s with pendingCount := s.pendingCount + 1 }
      else
        { s with pendingState := some inferredType, pendingCount := 1 }
    -- commit after enough consistent inferences
    if s1.pendingCount ≥ cfg.consistencyRequired then
      { s1 with currentState := inferredType, stateConfidence := confidence,
                pendingState := none, pendingCount := 0 }
    else s1

/-- `MotionStateMachine.update`: infer type and confidence from the
indicators, process the inference, then record history. -/
def update (cfg : MotionStateMachineConfig) (rcfg : MotionRulesConfig)
    (s : MachineState) (inp : HeuristicOutput ℚ × Option ℚ) : MachineState :=
  let inferredType := inferMotionType rcfg inp.1 inp.2
  let confidence := calculateConfidence rcfg inp.1 inferredType
  let s1 := processInference cfg s inferredType confidence
  { s1 with
      stateHistory := appendBounded cfg.historySize s1.stateHistory
        s1.currentState,
      confidenceHistory := appendBounded cfg.historySize s1.confidenceHistory
        s1.stateConfidence }

/-- Run the machine from the initial state over a list of inputs. -/
def runMachine (cfg : MotionStateMachineConfig) (rcfg : MotionRulesConfig)
    (inps : List (HeuristicOutput ℚ × Option ℚ)) : MachineState :=
  inps.foldl (update cfg rcfg) MachineState.init

/-- `calculate_confidence` never returns less than `0.4`: the base is
`0.5`, all adjustments but the smoothness penalty (`-0.1`) are
nonnegative, and the clamp keeps the value above `0.4`. -/
theorem calculateConfidence_ge (cfg : MotionRulesConfig)
    (h : HeuristicOutput ℚ) (t : MotionType) :
    2/5 ≤ calculateConfidence cfg h t := by
  unfold calculateConfidence
  refine le_trans ?_ (le_max_right 0 _)
  rw [le_min_iff]
  refine ⟨by norm_num, ?_⟩
  split_ifs <;> linarith

/-- `_process_inference` changes the committed state only in the commit
branch: the inference differs from the committed state, the confidence
reaches the threshold, and (with `consistency_required = 2`) the pending
state already equals the inferred type. -/
theorem processInference_change (s : MachineState) (t : MotionType) (c : ℚ)
    (hchange : (processInference .default s t c).currentState ≠
      s.currentState) :
    (processInference .default s t c).currentState = t ∧
      t ≠ s.currentState ∧ ¬ c < 4/10 ∧ s.pendingState = some t := by
  unfold processInference MotionStateMachineConfig.default at *
  split_ifs at hchange ⊢ with h1 h2 h3 <;> simp_all
  split_ifs at hchange ⊢ with h4
  · rfl
  · exact absurd rfl hchange

/-- `_process_inference` leaves the committed state unchanged whenever
the confidence is below the threshold. -/
theorem processInference_current_of_low (cfg : MotionStateMachineConfig)
    (s : MachineState) (t : MotionType) (c : ℚ)
    (hlow : c < cfg.minConfidenceThreshold) :
    (processInference cfg s t c).currentState = s.currentState := by
  unfold processInference
  split_ifs <;> simp_all

/-- The pending state of a machine run records the inference of the most
recent update: whenever it is `some B`, the trace is nonempty and its
last input inferred `B`.  (The low-confidence branch is unreachable
through `update` because `calculate_confidence` never goes below the
default threshold.) -/
theorem runMachine_pending_inv (rcfg : MotionRulesConfig)
    (pre : List (HeuristicOutput ℚ × Option ℚ)) (B : MotionType)
    (hp : (runMachine .default rcfg pre).pendingState = some B) :
    ∃ pre' y, pre = pre' ++ [y] ∧ inferMotionType rcfg y.1 y.2 = B := by
  induction pre using List.reverseRecOn with
  | nil => simp [runMachine, MachineState.init] at hp
  | append_singleton pre0 y ih =>
    refine ⟨pre0, y, rfl, ?_⟩
    rw [runMachine, List.foldl_append, List.foldl_cons, List.foldl_nil] at hp
    have hnl : ¬ calculateConfidence rcfg y.1 (inferMotionType rcfg y.1 y.2) <
        MotionStateMachineConfig.default.minConfidenceThreshold := by
      have hge := calculateConfidence_ge rcfg y.1
        (inferMotionType rcfg y.1 y.2)
      rw [not_lt]
      calc MotionStateMachineConfig.default.minConfidenceThreshold
          = 2/5 := by norm_num [MotionStateMachineConfig.default]
        _ ≤ _ := hge
    unfold update processInference at hp
    simp only at hp
    rw [if_neg hnl] at hp
    split_ifs at hp with h1 h3 h4 <;> simp_all

/-- C4: with the default state-machine configuration
(`consistency_required = 2`, `min_confidence_threshold = 0.4`) and any
motion-rules configuration, whenever an update changes the committed
motion state to a new type `B`, that update and the immediately
preceding update both inferred `B`: the change required `M = 2`
consecutive identical inferences. -/
theorem c4_commit_needs_consecutive_inferences (rcfg : MotionRulesConfig)
    (pre : List (HeuristicOutput ℚ × Option ℚ))
    (x : HeuristicOutput ℚ × Option ℚ)
    (hchange :
      (update .default rcfg (runMachine .default rcfg pre) x).currentState ≠
        (runMachine .default rcfg pre).currentState) :
    inferMotionType rcfg x.1 x.2 =
      (update .default rcfg (runMachine .default rcfg pre) x).currentState ∧
    ∃ pre' y, pre = pre' ++ [y] ∧
      inferMotionType rcfg y.1 y.2 =
        (update .default rcfg (runMachine .default rcfg pre) x).currentState := by
  have hcur : ∀ s : MachineState, (update .default rcfg s x).currentState =
      (processInference .default s (inferMotionType rcfg x.1 x.2)
        (calculateConfidence rcfg x.1
          (inferMotionType rcfg x.1 x.2))).currentState := fun s => rfl
  rw [hcur] at hchange ⊢
  obtain ⟨heq, hne, hnl, hpend⟩ :=
    processInference_change (runMachine .default rcfg pre)
      (inferMotionType rcfg x.1 x.2)
      (calculateConfidence rcfg x.1 (inferMotionType rcfg x.1 x.2)) hchange
  refine ⟨heq.symm, ?_⟩
  obtain ⟨pre', y, hpre, hinf⟩ :=
    runMachine_pending_inv rcfg pre (inferMotionType rcfg x.1 x.2) hpend
  refine ⟨pre', y, hpre, ?_⟩
  rw [heq, hinf]

/-- A concrete indicator record (no primary direction) whose inference
is `handheld`: fast but moderately smooth motion, empty subject. -/
def handheldInput : HeuristicOutput ℚ × Option ℚ :=
  (⟨"w", (0, 1), 60, 0, 55/100, 0, 1/2⟩, none)

/-- Witness for C4: feeding `handheldInput` twice to a fresh machine
changes the committed state (from `static` to `handheld`) at the second
update, and both updates inferred `handheld`. -/
theorem c4_commit_needs_consecutive_inferences_witness :
    inferMotionType .default handheldInput.1 handheldInput.2 =
      (update .default .default
        (runMachine .default .default [handheldInput])
        handheldInput).currentState ∧
    ∃ pre' y, [handheldInput] = pre' ++ [y] ∧
      inferMotionType .default y.1 y.2 =
        (update .default .default
          (runMachine .default .default [handheldInput])
          handheldInput).currentState :=
  c4_commit_needs_consecutive_inferences .default [handheldInput]
    handheldInput (by
      norm_num [update, runMachine, processInference, inferMotionType,
        inferMotionTypeRest, calculateConfidence, MachineState.init,
        MotionRulesConfig.default, MotionStateMachineConfig.default,
        handheldInput, appendBounded]
      simp)

/-- C10: an update whose inference differs from the committed state and
whose confidence is below `min_confidence_threshold` only decays the
stored confidence — committed state, pending state and pending counter
(and histories) are untouched; consequently a whole trace of
inferences with confidences below the threshold can never change the
committed motion type. -/
theorem c10_low_confidence_cannot_change_state
    (cfg : MotionStateMachineConfig) (s : MachineState) (t : MotionType)
    (c : ℚ) (hne : t ≠ s.currentState)
    (hlow : c < cfg.minConfidenceThreshold)
    (trace : List (MotionType × ℚ))
    (htrace : ∀ p ∈ trace, p.2 < cfg.minConfidenceThreshold) :
    processInference cfg s t c =
      { s with stateConfidence := s.stateConfidence * cfg.confidenceDecay } ∧
    (trace.foldl (fun st p => processInference cfg st p.1 p.2) s).currentState =
      s.currentState := by
  constructor
  · unfold processInference
    rw [if_neg hne, if_pos hlow]
  · clear hne hlow
    induction trace generalizing s with
    | nil => rfl
    | cons p ps ih =>
      have hp := htrace p (List.mem_cons_self p ps)
      have hrest : ∀ q ∈ ps, q.2 < cfg.minConfidenceThreshold := fun q hq =>
        htrace q (List.mem_cons_of_mem p hq)
      rw [List.foldl_cons,
        show (List.foldl (fun st p => processInference cfg st p.1 p.2)
          (processInference cfg s p.1 p.2) ps).currentState =
          (processInference cfg s p.1 p.2).currentState from ih _ hrest,
        processInference_current_of_low cfg s p.1 p.2 hp]

/-- Witness for C10: a single low-confidence `pan` inference on a fresh
machine only decays the confidence, and a two-step low-confidence trace
leaves the committed type `static`. -/
theorem c10_low_confidence_cannot_change_state_witness :
    processInference .default MachineState.init MotionType.pan (3/10) =
      { MachineState.init with
          stateConfidence := MachineState.init.stateConfidence * (9/10) } ∧
    (([(MotionType.pan, 3/10), (MotionType.pan, 35/100)] :
        List (MotionType × ℚ)).foldl
      (fun st p => processInference .default st p.1 p.2)
      MachineState.init).currentState = MachineState.init.currentState :=
  c10_low_confidence_cannot_change_state .default MachineState.init
    MotionType.pan (3/10) (by decide) (by norm_num [MotionStateMachineConfig.default])
    [(MotionType.pan, 3/10), (MotionType.pan, 35/100)]
    (by
      intro p hp
      simp only [List.mem_cons, List.not_mem_nil, or_false] at hp
      rcases hp with h | h <;> subst h <;>
        norm_num [MotionStateMachineConfig.default])


/-! ## Heuristic analyzer: frame percentage change
(`src/agents/heuristic_analyzer.py`, `calculate_frame_pct_change`) -/

/-- The `changes` list of `calculate_frame_pct_change`: for each
consecutive pair of areas, a relative change `|curr - prev| / prev` when
`prev > 0`, a full change `1` when `prev <= 0 < curr`, and nothing
otherwise. -/
def framePctChanges {α : Type} [LinearOrderedField α] : List α → List α
  | [] => []
  | [_] => []
  | a :: b :: rest =>
    (if a > 0 then [|b - a| / a] else if b > 0 then [(1 : α)] else []) ++
      framePctChanges (b :: rest)

/-- `HeuristicAnalyzerAgent.calculate_frame_pct_change`. -/
def calculateFramePctChange {α : Type} [LinearOrderedField α]
    (bboxSequence : List (BBox α)) : α :=
  if bboxSequence.length < 2 then 0
  else
    let areas := bboxSequence.map BBox.area
    let changes := framePctChanges areas
    if changes = [] then 0
    else
      let avgChange := changes.sum / changes.length
      let normalized := min 1 (avgChange / (1/2))
      max 0 (min 1 normalized)

/-- The per-pair contribution exactly as claim C5 words it: `1` for a
zero prior area with nonzero current area, `|curr - prev| / prev`
otherwise (`x / 0 = 0` for the remaining zero-prior pairs). -/
def specPairContribution {α : Type} [LinearOrderedField α] (p c : α) : α :=
  if p = 0 ∧ c ≠ 0 then 1 else |c - p| / p

/-- Claim C5's literal reading of `frame_pct_change`: the mean over all
consecutive pairs of `specPairContribution`, divided by `0.5` and
clamped to `[0,1]`; `0` for fewer than two boxes. -/
def specFramePctChange {α : Type} [LinearOrderedField α]
    (bboxSequence : List (BBox α)) : α :=
  if bboxSequence.length < 2 then 0
  else
    let areas := bboxSequence.map BBox.area
    let contribs := (areas.zip areas.tail).map
      (fun pc => specPairContribution pc.1 pc.2)
    max 0 (min 1 ((contribs.sum / contribs.length) / (1/2)))

/-- The per-pair contribution after amending claim C5 to what the code
does: pairs with nonpositive prior and nonpositive current areas are
excluded from the mean (and the full-change case requires a positive,
not merely nonzero, current area). -/
def amendedPairContribution {α : Type} [LinearOrderedField α] (p c : α) :
    Option α :=
  if p > 0 then some (|c - p| / p) else if c > 0 then some 1 else none

/-- Amended claim C5: mean over the contributing consecutive pairs only,
divided by `0.5` and clamped to `[0,1]`; `0` for fewer than two boxes or
when no pair contributes. -/
def amendedFramePctChange {α : Type} [LinearOrderedField α]
    (bboxSequence : List (BBox α)) : α :=
  if bboxSequence.length < 2 then 0
  else
    let areas := bboxSequence.map BBox.area
    let contribs := (areas.zip areas.tail).filterMap
      (fun pc => amendedPairContribution pc.1 pc.2)
    if contribs = [] then 0
    else max 0 (min 1 (min 1 ((contribs.sum / contribs.length) / (1/2))))

/-- The recursive `changes` list equals the `filterMap` over zipped
consecutive pairs. -/
theorem framePctChanges_eq_filterMap {α : Type} [LinearOrderedField α]
    (xs : List α) :
    framePctChanges xs = (xs.zip xs.tail).filterMap
      (fun pc => amendedPairContribution pc.1 pc.2) := by
  induction xs with
  | nil => rfl
  | cons a ys ih =>
    cases ys with
    | nil => rfl
    | cons b rest =>
      rw [framePctChanges, ih]
      simp only [List.tail_cons, List.zip_cons_cons, List.filterMap_cons]
      unfold amendedPairContribution
      split_ifs <;> simp

/-- The four valid bounding boxes of the C5 counterexample, with areas
`1/10`, `11/100`, `0`, `0`. -/
def c5Boxes : List (BBox ℚ) :=
  [⟨0, 0, 1/10, 1⟩, ⟨0, 0, 11/100, 1⟩, ⟨0, 0, 0, 0⟩, ⟨0, 0, 0, 0⟩]

/-- Counterexample to C5 as stated: on `c5Boxes` the code drops the
final `(0, 0)` pair from the mean's denominator and returns `1`, while
the claim's mean over all three consecutive pairs gives `11/15`. -/
theorem c5_frame_pct_change_counterexample :
    calculateFramePctChange c5Boxes = 1 ∧
      specFramePctChange c5Boxes = 11/15 ∧ (1 : ℚ) ≠ 11/15 := by
  refine ⟨?_, ?_, by norm_num⟩
  · norm_num [calculateFramePctChange, c5Boxes, framePctChanges, BBox.area,
      specPairContribution, abs, min_def, max_def]
    simp
  · norm_num [specFramePctChange, c5Boxes, BBox.area, specPairContribution,
      abs, min_def, max_def]

/-- C5 (amended): `calculate_frame_pct_change` is the mean over the
contributing consecutive pairs (positive prior area contributes the
relative change, nonpositive prior with positive current contributes 1,
other pairs are excluded), divided by `0.5` and clamped to `[0,1]`; `0`
for fewer than two boxes or when no pair contributes. -/
theorem c5_frame_pct_change_amended {α : Type} [LinearOrderedField α]
    (bboxSequence : List (BBox α)) :
    calculateFramePctChange bboxSequence =
      amendedFramePctChange bboxSequence := by
  simp only [calculateFramePctChange, amendedFramePctChange,
    framePctChanges_eq_filterMap]


/-! ## Metadata synthesizer (`src/agents/metadata_synthesizer.py`) -/

/-- Motion parameters of `MetadataOutput` (`MotionParams`). -/
structure MotionParams where
  durationS : ℚ
  framePctChange : ℚ
  speedProfile : SpeedProfile
  motionSmoothness : ℚ
  deriving DecidableEq, Repr

/-- Framing data of `MetadataOutput` (`FramingData`). -/
structure FramingData where
  subjectBbox : BBox ℚ
  subjectOccupancy : ℚ
  suggestedScale : SuggestedScale
  deriving DecidableEq, Repr

/-- Output schema of the Metadata Synthesizer Agent (`MetadataOutput`). -/
structure MetadataOutput where
  timeRange : ℚ × ℚ
  motionType : MotionType
  motionParams : MotionParams
  framing : FramingData
  beatAlignmentScore : ℚ
  confidence : ℚ
  explainability : String
  deriving DecidableEq, Repr

/-- `MetadataSynthesizerAgent._auto_fix_metadata` (the `errors` argument
only feeds logging and does not influence the result). -/
def autoFixMetadata (metadata : MetadataOutput) (errors : List String) :
    MetadataOutput :=
  let _ := errors
  -- clamp numeric values to valid ranges
  let confidence := max 0 (min 1 metadata.confidence)
  let beatAlignment := max 0 (min 1 metadata.beatAlignmentScore)
  -- fix motion params
  let framePctChange := max 0 (min 1 metadata.motionParams.framePctChange)
  let motionSmoothness := max 0 (min 1 metadata.motionParams.motionSmoothness)
  let durationS := max (1/1000) metadata.motionParams.durationS
  let motionParams : MotionParams :=
    ⟨durationS, framePctChange, metadata.motionParams.speedProfile,
      motionSmoothness⟩
  -- fix framing
  let subjectOccupancy := max 0 (min 1 metadata.framing.subjectOccupancy)
  let subjectBbox := metadata.framing.subjectBbox.normalize
  let framing : FramingData :=
    ⟨subjectBbox, subjectOccupancy, metadata.framing.suggestedScale⟩
  -- fix time range (the second check uses the already-fixed start)
  let start1 := if metadata.timeRange.1 < 0 then 0 else metadata.timeRange.1
  let end1 := if metadata.timeRange.2 ≤ start1 then start1 + 1
    else metadata.timeRange.2
  -- truncate explainability if too long
  let explainability :=
    if metadata.explainability.length > 500 then
      metadata.explainability.take 497 ++ "..."
    else metadata.explainability
  ⟨(start1, end1), metadata.motionType, motionParams, framing,
    beatAlignment, confidence, explainability⟩

/-- The validity predicate exactly as claim C7 lists it: ordered
nonnegative time range, the five scalars in `[0,1]`, positive duration,
valid subject bbox, explainability at most 500 characters. -/
def c7Valid (m : MetadataOutput) : Prop :=
  0 ≤ m.timeRange.1 ∧ m.timeRange.1 < m.timeRange.2 ∧
    0 ≤ m.confidence ∧ m.confidence ≤ 1 ∧
    0 ≤ m.beatAlignmentScore ∧ m.beatAlignmentScore ≤ 1 ∧
    0 ≤ m.motionParams.framePctChange ∧ m.motionParams.framePctChange ≤ 1 ∧
    0 ≤ m.motionParams.motionSmoothness ∧
    m.motionParams.motionSmoothness ≤ 1 ∧
    0 ≤ m.framing.subjectOccupancy ∧ m.framing.subjectOccupancy ≤ 1 ∧
    0 < m.motionParams.durationS ∧
    m.framing.subjectBbox.isValid ∧
    m.explainability.length ≤ 500

instance (m : MetadataOutput) : Decidable (c7Valid m) := by
  unfold c7Valid; infer_instance

/-- Claim C7 amended: the duration bound is `duration_s >= 0.001` (the
clamp floor of the auto-repair), not merely `duration_s > 0`. -/
def c7ValidAmended (m : MetadataOutput) : Prop :=
  0 ≤ m.timeRange.1 ∧ m.timeRange.1 < m.timeRange.2 ∧
    0 ≤ m.confidence ∧ m.confidence ≤ 1 ∧
    0 ≤ m.beatAlignmentScore ∧ m.beatAlignmentScore ≤ 1 ∧
    0 ≤ m.motionParams.framePctChange ∧ m.motionParams.framePctChange ≤ 1 ∧
    0 ≤ m.motionParams.motionSmoothness ∧
    m.motionParams.motionSmoothness ≤ 1 ∧
    0 ≤ m.framing.subjectOccupancy ∧ m.framing.subjectOccupancy ≤ 1 ∧
    1/1000 ≤ m.motionParams.durationS ∧
    m.framing.subjectBbox.isValid ∧
    m.explainability.length ≤ 500

instance (m : MetadataOutput) : Decidable (c7ValidAmended m) := by
  unfold c7ValidAmended; infer_instance

/-- Clamping to `[0,1]` is the identity on `[0,1]`. -/
theorem clamp01_eq_self (c : ℚ) (h0 : 0 ≤ c) (h1 : c ≤ 1) :
    max 0 (min 1 c) = c := by
  rw [min_eq_right h1, max_eq_right h0]

/-- `BBox.normalize` is the identity on valid boxes. -/
theorem BBox.normalize_eq_self (b : BBox ℚ) (hv : b.isValid) :
    b.normalize = b := by
  obtain ⟨hx0, hx1, hy0, hy1, hw0, hw1, hh0, hh1, hxw, hyh⟩ := hv
  unfold BBox.normalize
  obtain ⟨x, y, w, h⟩ := b
  simp only at hx0 hx1 hy0 hy1 hw0 hw1 hh0 hh1 hxw hyh ⊢
  rw [min_eq_right hx1, max_eq_right hx0, min_eq_right hy1,
    max_eq_right hy0, min_eq_right (by linarith : w ≤ 1 - x),
    max_eq_right hw0, min_eq_right (by linarith : h ≤ 1 - y),
    max_eq_right hh0]

/-- A valid metadata record everywhere except the claim's weak duration
bound: its duration is `0.0005`, strictly between `0` and the `0.001`
floor of the auto-repair clamp. -/
def c7Meta : MetadataOutput :=
  ⟨(0, 1), MotionType.static, ⟨1/2000, 0, SpeedProfile.linear, 1/2⟩,
    ⟨⟨0, 0, 1/2, 1/2⟩, 1/2, SuggestedScale.medium⟩, 1/2, 1/2, "ok"⟩

/-- Counterexample to C7 as stated: `c7Meta` satisfies the claim's
validity predicate (`duration_s = 0.0005 > 0`), yet auto-repair raises
its duration to `0.001` and so does not act as the identity. -/
theorem c7_auto_fix_counterexample :
    c7Valid c7Meta ∧ autoFixMetadata c7Meta [] ≠ c7Meta := by
  constructor
  · unfold c7Valid c7Meta BBox.isValid
    refine ⟨by norm_num, by norm_num, by norm_num, by norm_num, by norm_num,
      by norm_num, by norm_num, by norm_num, by norm_num, by norm_num,
      by norm_num, by norm_num, by norm_num,
      ⟨by norm_num, by norm_num, by norm_num, by norm_num, by norm_num,
        by norm_num, by norm_num, by norm_num, by norm_num, by norm_num⟩,
      by decide⟩
  · intro h
    have hd : (autoFixMetadata c7Meta []).motionParams.durationS =
        c7Meta.motionParams.durationS := by rw [h]
    rw [show (autoFixMetadata c7Meta []).motionParams.durationS =
        max (1/1000) (1/2000) from rfl] at hd
    rw [max_eq_left (by norm_num)] at hd
    norm_num [c7Meta] at hd

/-- C7 (amended): auto-repair is the identity on every metadata record
that is valid with the strengthened duration bound `>= 0.001`. -/
theorem c7_auto_fix_identity_amended (m : MetadataOutput)
    (errors : List String) (hv : c7ValidAmended m) :
    autoFixMetadata m errors = m := by
  obtain ⟨ht0, ht1, hc0, hc1, hb0, hb1, hf0, hf1, hs0, hs1, ho0, ho1,
    hd, hbb, he⟩ := hv
  unfold autoFixMetadata
  simp only
  rw [clamp01_eq_self _ hc0 hc1, clamp01_eq_self _ hb0 hb1,
    clamp01_eq_self _ hf0 hf1, clamp01_eq_self _ hs0 hs1,
    clamp01_eq_self _ ho0 ho1, max_eq_right hd,
    BBox.normalize_eq_self _ hbb,
    if_neg (not_lt.mpr ht0), if_neg (not_le.mpr ht1),
    if_neg (not_lt.mpr he)]

/-- Witness for the amended C7 at a concrete valid record (duration 2s):
auto-repair returns it unchanged. -/
theorem c7_auto_fix_identity_amended_witness :
    c7ValidAmended
      ⟨(0, 2), MotionType.pan, ⟨2, 1/10, SpeedProfile.easeIn, 3/4⟩,
        ⟨⟨1/4, 1/4, 1/2, 1/2⟩, 1/4, SuggestedScale.closeup⟩, 1/2, 8/10,
        "pan left"⟩ ∧
    autoFixMetadata
      ⟨(0, 2), MotionType.pan, ⟨2, 1/10, SpeedProfile.easeIn, 3/4⟩,
        ⟨⟨1/4, 1/4, 1/2, 1/2⟩, 1/4, SuggestedScale.closeup⟩, 1/2, 8/10,
        "pan left"⟩ [] =
      ⟨(0, 2), MotionType.pan, ⟨2, 1/10, SpeedProfile.easeIn, 3/4⟩,
        ⟨⟨1/4, 1/4, 1/2, 1/2⟩, 1/4, SuggestedScale.closeup⟩, 1/2, 8/10,
        "pan left"⟩ := by
  have hv : c7ValidAmended
      ⟨(0, 2), MotionType.pan, ⟨2, 1/10, SpeedProfile.easeIn, 3/4⟩,
        ⟨⟨1/4, 1/4, 1/2, 1/2⟩, 1/4, SuggestedScale.closeup⟩, 1/2, 8/10,
        "pan left"⟩ := by
    unfold c7ValidAmended BBox.isValid
    refine ⟨by norm_num, by norm_num, by norm_num, by norm_num, by norm_num,
      by norm_num, by norm_num, by norm_num, by norm_num, by norm_num,
      by norm_num, by norm_num, by norm_num,
      ⟨by norm_num, by norm_num, by norm_num, by norm_num, by norm_num,
        by norm_num, by norm_num, by norm_num, by norm_num, by norm_num⟩,
      by decide⟩
  exact ⟨hv, c7_auto_fix_identity_amended _ [] hv⟩


/-! ## Instruction generator (`src/agents/instruction_generator.py`) -/

/-- Configuration for the Instruction Generator Agent
(`InstructionGeneratorConfig`). -/
structure InstructionGeneratorConfig where
  slowThreshold : ℚ := 1/10
  fastThreshold : ℚ := 25/100
  highSmoothnessThreshold : ℚ := 7/10
  lowSmoothnessThreshold : ℚ := 4/10
  highConfidenceThreshold : ℚ := 75/100
  mediumConfidenceThreshold : ℚ := 55/100
  deriving Repr

/-- The default `InstructionGeneratorConfig()`. -/
def InstructionGeneratorConfig.default : InstructionGeneratorConfig := {}

/-- Python `int(q)`: truncation toward zero (used for percentages in the
generated text). -/
def pyInt (q : ℚ) : ℤ := q.num / (q.den : ℤ)

/-- `map_speed_description`: the direction word per motion type and the
speed prefix per `frame_pct_change` band; `static` returns early. -/
def mapSpeedDescription (cfg : InstructionGeneratorConfig)
    (framePctChange : ℚ) (motionType : MotionType) : String :=
  if motionType = MotionType.static then "静止"
  else
    let direction :=
      match motionType with
      | MotionType.dollyIn => "推进"
      | MotionType.dollyOut => "拉远"
      | MotionType.pan => "横移"
      | MotionType.tilt => "纵移"
      | MotionType.track => "跟踪"
      | MotionType.handheld => "手持移动"
      | MotionType.static => "运动"
    if framePctChange < cfg.slowThreshold then "缓慢" ++ direction
    else if framePctChange ≤ cfg.fastThreshold then "中速" ++ direction
    else if motionType = MotionType.dollyIn ∨
        motionType = MotionType.dollyOut then
      "快速" ++ direction ++ "或换镜头"
    else "快速" ++ direction

/-- `map_equipment_suggestion`. -/
def mapEquipmentSuggestion (cfg : InstructionGeneratorConfig)
    (motionSmoothness : ℚ) : String :=
  if motionSmoothness > cfg.highSmoothnessThreshold then
    "建议使用滑轨/电动滑轨/三轴稳定器"
  else if motionSmoothness ≥ cfg.lowSmoothnessThreshold then
    "建议手持配合云台/稳定器使用"
  else "建议使用三脚架静态拍摄或减少运动幅度"

/-- `_get_action_type_chinese`. -/
def actionTypeChinese (motionType : MotionType) : String :=
  match motionType with
  | MotionType.dollyIn => "推镜头"
  | MotionType.dollyOut => "拉镜头"
  | MotionType.pan => "横摇镜头"
  | MotionType.tilt => "纵摇镜头"
  | MotionType.track => "跟踪镜头"
  | MotionType.handheld => "手持镜头"
  | MotionType.static => "静态镜头"

/-- `_get_alternative_suggestion`. -/
def alternativeSuggestion (motionType : MotionType) : String :=
  match motionType with
  | MotionType.dollyIn => "静态特写或缓慢推进"
  | MotionType.dollyOut => "静态全景或缓慢拉远"
  | MotionType.pan => "静态拍摄或分段横摇"
  | MotionType.tilt => "静态拍摄或分段纵摇"
  | MotionType.track => "固定机位跟拍或手持跟踪"
  | MotionType.handheld => "三脚架固定拍摄"
  | MotionType.static => "保持当前静态拍摄"

/-- One line of the primary layer, as a structured rendering of the
corresponding Python f-string (numeric formatting abstracted: the line
carries the interpolated values themselves). -/
inductive PrimaryLine where
  | timeAction (startS endS : ℚ) (action : String)
  | speedDuration (speedDesc : String) (durationS : ℚ)
  | equipment (text : String)
  | confidenceProceed (confidence : ℚ)
  | confidenceWarn (confidence : ℚ)
  | confidenceManual (confidence : ℚ) (alternative : String)
  deriving DecidableEq, Repr

/-- Whether a primary line carries an alternative suggestion. -/
def PrimaryLine.hasAlternative : PrimaryLine → Bool
  | PrimaryLine.confidenceManual _ _ => true
  | _ => false

/-- `InstructionGeneratorAgent.generate_primary`: always four lines —
time range and action, speed and duration, equipment, confidence. -/
def generatePrimary (cfg : InstructionGeneratorConfig)
    (metadata : MetadataOutput) : List PrimaryLine :=
  [PrimaryLine.timeAction metadata.timeRange.1 metadata.timeRange.2
      (actionTypeChinese metadata.motionType),
   PrimaryLine.speedDuration
      (mapSpeedDescription cfg metadata.motionParams.framePctChange
        metadata.motionType)
      metadata.motionParams.durationS,
   PrimaryLine.equipment
      (mapEquipmentSuggestion cfg metadata.motionParams.motionSmoothness),
   if metadata.confidence > cfg.highConfidenceThreshold then
      PrimaryLine.confidenceProceed metadata.confidence
   else if metadata.confidence ≥ cfg.mediumConfidenceThreshold then
      PrimaryLine.confidenceWarn metadata.confidence
   else
      PrimaryLine.confidenceManual metadata.confidence
        (alternativeSuggestion metadata.motionType)]

/-- `_explain_motion_type`: first explain sentence. -/
def explainMotionType (motionType : MotionType) (framePctChange : ℚ)
    (motionSmoothness : ℚ) : String :=
  let _ := framePctChange
  let smoothnessDesc :=
    if motionSmoothness > 7/10 then "流畅"
    else if motionSmoothness > 4/10 then "适中"
    else "需要稳定"
  match motionType with
  | MotionType.dollyIn =>
    "画面呈现向前推进的特征，主体逐渐放大，运动" ++ smoothnessDesc ++ "。"
  | MotionType.dollyOut =>
    "画面呈现向后拉远的特征，展示更多环境，运动" ++ smoothnessDesc ++ "。"
  | MotionType.pan =>
    "画面呈现水平横移特征，适合展示宽广场景，运动" ++ smoothnessDesc ++ "。"
  | MotionType.tilt =>
    "画面呈现垂直移动特征，适合展示高度变化，运动" ++ smoothnessDesc ++ "。"
  | MotionType.track =>
    "画面呈现跟随主体运动的特征，保持主体在画面中的位置，运动" ++
      smoothnessDesc ++ "。"
  | MotionType.handheld => "画面呈现手持拍摄的自然晃动特征，具有临场感。"
  | MotionType.static => "画面稳定无明显运动，适合静态构图或等待动作发生。"

/-- `_explain_framing`: second explain sentence. -/
def explainFraming (subjectOccupancy : ℚ) (suggestedScale : SuggestedScale) :
    String :=
  let occupancyPct := toString (pyInt (subjectOccupancy * 100))
  let scaleDesc :=
    match suggestedScale with
    | SuggestedScale.extremeCloseup => "特写"
    | SuggestedScale.closeup => "近景"
    | SuggestedScale.medium => "中景"
    | SuggestedScale.wide => "远景/全景"
  if subjectOccupancy ≥ 1/2 then
    "主体占画面约" ++ occupancyPct ++ "%，构图紧凑，建议" ++ scaleDesc ++
      "拍摄以突出主体细节。"
  else if subjectOccupancy ≥ 25/100 then
    "主体占画面约" ++ occupancyPct ++ "%，构图均衡，建议" ++ scaleDesc ++
      "拍摄以平衡主体与环境。"
  else if subjectOccupancy ≥ 1/10 then
    "主体占画面约" ++ occupancyPct ++ "%，环境占比较大，建议" ++ scaleDesc ++
      "拍摄以展示场景氛围。"
  else
    "主体占画面约" ++ occupancyPct ++ "%，以环境为主，建议" ++ scaleDesc ++
      "拍摄以呈现整体场景。"

/-- `_explain_rhythm`: optional third explain sentence. -/
def explainRhythm (beatAlignment : ℚ) : String :=
  if beatAlignment > 8/10 then "镜头运动与音乐节拍高度同步，建议保持这种节奏感。"
  else if beatAlignment > 6/10 then "镜头运动与音乐节拍较为同步，可适当强化节奏配合。"
  else "镜头运动与音乐节拍有一定关联，可考虑调整以增强节奏感。"

/-- `InstructionGeneratorAgent.generate_explain`: one to three sentences
joined together (the rhythm sentence only when beat alignment exceeds
`0.5`). -/
def generateExplain (metadata : MetadataOutput) : String :=
  explainMotionType metadata.motionType metadata.motionParams.framePctChange
      metadata.motionParams.motionSmoothness ++
    explainFraming metadata.framing.subjectOccupancy
      metadata.framing.suggestedScale ++
    (if metadata.beatAlignmentScore > 1/2 then
      explainRhythm metadata.beatAlignmentScore
    else "")

/-- Layer-3 parameters (`AdvancedParams`). -/
structure AdvancedParams where
  targetOccupancy : String
  durationS : ℚ
  speedCurve : String
  stabilization : String
  notes : List String
  deriving DecidableEq, Repr

/-- `get_equipment_category`. -/
def getEquipmentCategory (cfg : InstructionGeneratorConfig)
    (motionSmoothness : ℚ) : String :=
  if motionSmoothness > cfg.highSmoothnessThreshold then "professional"
  else if motionSmoothness ≥ cfg.lowSmoothnessThreshold then "handheld_gimbal"
  else "static"

/-- `get_stabilization_recommendation`. -/
def getStabilizationRecommendation (cfg : InstructionGeneratorConfig)
    (motionSmoothness : ℚ) (motionType : MotionType) : String :=
  let category := getEquipmentCategory cfg motionSmoothness
  if category = "professional" then
    if motionType = MotionType.dollyIn ∨ motionType = MotionType.dollyOut then
      "电动滑轨或轨道车"
    else if motionType = MotionType.track then "三轴稳定器或斯坦尼康"
    else if motionType = MotionType.pan ∨ motionType = MotionType.tilt then
      "电动云台或液压云台"
    else "三轴稳定器"
  else if category = "handheld_gimbal" then
    if motionType = MotionType.handheld then "手持稳定器" else "手持云台"
  else
    if motionType = MotionType.static then "三脚架" else "三脚架或独脚架"

/-- `_get_target_occupancy_description`. -/
def targetOccupancyDescription (currentOccupancy : ℚ)
    (suggestedScale : SuggestedScale) : String :=
  let target :=
    match suggestedScale with
    | SuggestedScale.extremeCloseup => "60%-80%"
    | SuggestedScale.closeup => "40%-60%"
    | SuggestedScale.medium => "20%-40%"
    | SuggestedScale.wide => "5%-20%"
  "当前" ++ toString (pyInt (currentOccupancy * 100)) ++ "%，目标" ++ target

/-- `_get_speed_curve_description`. -/
def speedCurveDescription (speedProfile : SpeedProfile) : String :=
  match speedProfile with
  | SpeedProfile.easeIn => "渐入（开始慢，逐渐加速）"
  | SpeedProfile.easeOut => "渐出（开始快，逐渐减速）"
  | SpeedProfile.easeInOut => "渐入渐出（两端慢，中间快）"
  | SpeedProfile.linear => "线性（匀速运动）"

/-- `_estimate_physical_movement` (decimal rendering of the estimates is
abstracted by `toString` of the exact rational). -/
def estimatePhysicalMovement (motionType : MotionType) (framePctChange : ℚ)
    (durationS : ℚ) : Option String :=
  if motionType = MotionType.static then none
  else if motionType = MotionType.dollyIn ∨
      motionType = MotionType.dollyOut then
    let distanceM := framePctChange * 5
    let speedMS := if durationS > 0 then distanceM / durationS else 0
    some ("预估移动距离约 " ++ toString distanceM ++ "m，速度约 " ++
      toString speedMS ++ "m/s")
  else if motionType = MotionType.pan ∨ motionType = MotionType.tilt then
    let angleDeg := framePctChange * 150
    let angularSpeed := if durationS > 0 then angleDeg / durationS else 0
    let direction := if motionType = MotionType.pan then "水平" else "垂直"
    some ("预估" ++ direction ++ "旋转约 " ++ toString angleDeg ++
      "°，角速度约 " ++ toString angularSpeed ++ "°/s")
  else if motionType = MotionType.track then
    some ("预估跟踪距离约 " ++ toString (framePctChange * 3) ++ "m")
  else none

/-- `_suggest_lens`. -/
def suggestLens (suggestedScale : SuggestedScale) (motionType : MotionType) :
    Option String :=
  let base :=
    match suggestedScale with
    | SuggestedScale.extremeCloseup => "85-135mm 或微距镜头"
    | SuggestedScale.closeup => "50-85mm"
    | SuggestedScale.medium => "35-50mm"
    | SuggestedScale.wide => "16-35mm 广角镜头"
  if motionType = MotionType.dollyIn ∨ motionType = MotionType.dollyOut then
    some ("建议焦段：" ++ base ++ "，推拉镜头可考虑变焦镜头配合")
  else if motionType = MotionType.handheld then
    some ("建议焦段：" ++ base ++ "，手持拍摄建议使用防抖镜头")
  else some ("建议焦段：" ++ base)

/-- `_get_composition_tip`. -/
def compositionTip (suggestedScale : SuggestedScale) : Option String :=
  match suggestedScale with
  | SuggestedScale.extremeCloseup => some ("特写构图注意眼神光和皮肤质感")
  | SuggestedScale.closeup => some ("近景构图注意头部空间和视线方向")
  | SuggestedScale.medium => some ("中景构图注意人物与环境的平衡")
  | SuggestedScale.wide => some ("远景构图注意前景元素和景深层次")

/-- `_generate_professional_notes`. -/
def professionalNotes (metadata : MetadataOutput) : List String :=
  (estimatePhysicalMovement metadata.motionType
      metadata.motionParams.framePctChange
      metadata.motionParams.durationS).toList ++
    (suggestLens metadata.framing.suggestedScale metadata.motionType).toList ++
    (if metadata.beatAlignmentScore > 1/2 then
      ["注意与音乐节拍配合，可在节拍点开始或结束运动"] else []) ++
    (if metadata.motionParams.motionSmoothness < 1/2 then
      ["当前运动较为抖动，建议增加稳定措施或降低运动速度"] else []) ++
    (compositionTip metadata.framing.suggestedScale).toList

/-- `InstructionGeneratorAgent.generate_advanced`. -/
def generateAdvanced (cfg : InstructionGeneratorConfig)
    (metadata : MetadataOutput) : AdvancedParams :=
  ⟨targetOccupancyDescription metadata.framing.subjectOccupancy
      metadata.framing.suggestedScale,
    metadata.motionParams.durationS,
    speedCurveDescription metadata.motionParams.speedProfile,
    getStabilizationRecommendation cfg
      metadata.motionParams.motionSmoothness metadata.motionType,
    professionalNotes metadata⟩

/-- Three-layer instruction card (`InstructionCard`); `primary` holds the
structured renderings of the Python strings. -/
structure InstructionCard where
  videoId : String
  primary : List PrimaryLine
  explain : String
  advanced : AdvancedParams
  deriving DecidableEq, Repr

/-- `InstructionCard.is_complete`: all three layers present and
non-empty (`advanced` is never `None` in the embedding, so its conjunct
is `True`). -/
def InstructionCard.isComplete (card : InstructionCard) : Prop :=
  card.primary.length > 0 ∧ card.explain.length > 0 ∧ True

/-- `InstructionGeneratorAgent.process`: build the three layers
(`video_id` falls back to `"unknown"` since `MetadataOutput` has no
`video_id` field). -/
def processInstruction (cfg : InstructionGeneratorConfig)
    (metadata : MetadataOutput) : InstructionCard :=
  ⟨"unknown", generatePrimary cfg metadata, generateExplain metadata,
    generateAdvanced cfg metadata⟩


/-- A primary line of `generate_primary` carries an alternative
suggestion exactly when the confidence is strictly below `0.55`. -/
theorem generatePrimary_hasAlternative_iff (m : MetadataOutput) :
    (∃ line ∈ generatePrimary .default m, line.hasAlternative = true) ↔
      m.confidence < 55/100 := by
  unfold generatePrimary InstructionGeneratorConfig.default
  simp only [List.mem_cons, List.not_mem_nil, or_false]
  constructor
  · rintro ⟨line, (h | h | h | h), halt⟩ <;> subst h
    · simp [PrimaryLine.hasAlternative] at halt
    · simp [PrimaryLine.hasAlternative] at halt
    · simp [PrimaryLine.hasAlternative] at halt
    · split_ifs at halt with hc1 hc2
      · simp [PrimaryLine.hasAlternative] at halt
      · simp [PrimaryLine.hasAlternative] at halt
      · exact not_le.mp hc2
  · intro hc
    refine ⟨_, Or.inr (Or.inr (Or.inr rfl)), ?_⟩
    rw [if_neg (by linarith : ¬ m.confidence > 75/100),
      if_neg (not_le.mpr hc)]
    rfl

/-- The first sentence of the explain layer is never empty. -/
theorem explainMotionType_length_pos (mt : MotionType) (fpc ms : ℚ) :
    0 < (explainMotionType mt fpc ms).length := by
  unfold explainMotionType
  cases mt <;> simp only [String.length_append] <;>
    first
    | decide
    | (refine Nat.add_pos_left ?_ _
       first
       | decide
       | (refine Nat.add_pos_left ?_ _
          decide))

/-- The explain layer is never empty. -/
theorem generateExplain_length_pos (m : MetadataOutput) :
    0 < (generateExplain m).length := by
  unfold generateExplain
  rw [String.length_append, String.length_append]
  exact Nat.add_pos_left (Nat.add_pos_left
    (explainMotionType_length_pos m.motionType
      m.motionParams.framePctChange m.motionParams.motionSmoothness) _) _

/-- Metadata with confidence exactly `0.55`, otherwise unremarkable. -/
def c8Meta : MetadataOutput :=
  ⟨(0, 1), MotionType.pan, ⟨2, 1/10, SpeedProfile.linear, 3/4⟩,
    ⟨⟨0, 0, 1/2, 1/2⟩, 1/4, SuggestedScale.medium⟩, 1/2, 55/100, "x"⟩

/-- Counterexample to C8 as stated: at confidence exactly `0.55`
(`<= 0.55`), line 4 is the plain warning line — no line of the primary
layer carries an alternative suggestion. -/
theorem c8_primary_counterexample :
    c8Meta.confidence ≤ 55/100 ∧
      ∀ line ∈ generatePrimary .default c8Meta,
        line.hasAlternative = false := by
  refine ⟨by norm_num [c8Meta], ?_⟩
  intro line hline
  have h4 : generatePrimary .default c8Meta =
      [PrimaryLine.timeAction 0 1 (actionTypeChinese MotionType.pan),
       PrimaryLine.speedDuration
         (mapSpeedDescription .default (1/10) MotionType.pan) 2,
       PrimaryLine.equipment (mapEquipmentSuggestion .default (3/4)),
       PrimaryLine.confidenceWarn (55/100)] := by
    unfold generatePrimary c8Meta InstructionGeneratorConfig.default
    norm_num
  rw [h4] at hline
  simp only [List.mem_cons, List.not_mem_nil, or_false] at hline
  rcases hline with h | h | h | h <;> subst h <;> rfl

/-- C8 (amended): the primary layer always has exactly the four lines —
time range and action type, speed descriptor and duration, equipment,
confidence — where the confidence line carries an alternative
suggestion exactly when confidence is strictly below `0.55` (not at
`0.55` itself); consequently the instruction card has all three layers
non-empty and its primary layer has between 1 and 4 entries. -/
theorem c8_primary_structure_amended (m : MetadataOutput) :
    generatePrimary .default m =
      [PrimaryLine.timeAction m.timeRange.1 m.timeRange.2
          (actionTypeChinese m.motionType),
       PrimaryLine.speedDuration
          (mapSpeedDescription .default m.motionParams.framePctChange
            m.motionType) m.motionParams.durationS,
       PrimaryLine.equipment
          (mapEquipmentSuggestion .default m.motionParams.motionSmoothness),
       if m.confidence > 75/100 then
          PrimaryLine.confidenceProceed m.confidence
       else if m.confidence ≥ 55/100 then
          PrimaryLine.confidenceWarn m.confidence
       else
          PrimaryLine.confidenceManual m.confidence
            (alternativeSuggestion m.motionType)] ∧
    ((∃ line ∈ generatePrimary .default m, line.hasAlternative = true) ↔
      m.confidence < 55/100) ∧
    (processInstruction .default m).isComplete ∧
    1 ≤ (processInstruction .default m).primary.length ∧
    (processInstruction .default m).primary.length ≤ 4 := by
  refine ⟨rfl, generatePrimary_hasAlternative_iff m, ?_,
    by simp [processInstruction, generatePrimary],
    by simp [processInstruction, generatePrimary]⟩
  exact ⟨by simp [processInstruction, generatePrimary],
    generateExplain_length_pos m, trivial⟩


/-! ## Orchestrator (`src/services/orchestrator.py`) -/

/-- Confidence-gate actions (`ConfidenceAction`). -/
inductive ConfidenceAction where
  | proceed
  | warn
  | manual
  deriving DecidableEq, Repr

/-- Pipeline configuration (`PipelineConfig`); the fields that do not
influence control flow are kept for completeness. -/
structure PipelineConfig where
  targetResolution : ℕ × ℕ := (640, 360)
  maxFileSizeMb : ℚ := 2048
  enableKeypoints : Bool := false
  highConfidenceThreshold : ℚ := 75/100
  mediumConfidenceThreshold : ℚ := 55/100
  maxRetries : ℕ := 3
  baseDelay : ℚ := 1
  maxDelay : ℚ := 30
  validateMetadata : Bool := true
  autoCompleteMissing : Bool := true
  deriving Repr

/-- The default `PipelineConfig()`. -/
def PipelineConfig.default : PipelineConfig := {}

/-- `Orchestrator.handle_confidence`. -/
def handleConfidence (cfg : PipelineConfig) (confidence : ℚ) :
    ConfidenceAction :=
  if confidence > cfg.highConfidenceThreshold then ConfidenceAction.proceed
  else if confidence ≥ cfg.mediumConfidenceThreshold then
    ConfidenceAction.warn
  else ConfidenceAction.manual

/-- `Orchestrator.get_confidence_message`. -/
def getConfidenceMessage : ConfidenceAction → Option String
  | ConfidenceAction.proceed => none
  | ConfidenceAction.warn => some ("请尝试并拍摄两条版本")
  | ConfidenceAction.manual => some ("置信度较低，建议人工确认后再执行")

/-- A stage failure as seen by `retry_with_backoff`: a `RetryableError`
or any other exception, with its message. -/
structure StageError where
  retryable : Bool
  message : String
  deriving DecidableEq, Repr

/-- The retry loop of `Orchestrator.retry_with_backoff`: `fuel`
remaining attempts, `i` the current attempt index, `lastError` the
message of the last retryable failure. -/
def retryLoop {γ : Type} (attempts : ℕ → Except StageError γ) :
    ℕ → ℕ → Option String → Except String γ
  | 0, _, lastError => Except.error (lastError.getD "All retries failed")
  | fuel + 1, i, lastError =>
    match attempts i with
    | Except.ok v => Except.ok v
    | Except.error e =>
      if e.retryable then retryLoop attempts fuel (i + 1) (some e.message)
      else Except.error e.message

/-- `Orchestrator.retry_with_backoff` over an oracle giving the outcome
of each attempt: retryable failures are retried up to `retries` times,
any other failure propagates immediately, and exhaustion raises the
last retryable error. -/
def retryWithBackoff {γ : Type} (retries : ℕ)
    (attempts : ℕ → Except StageError γ) : Except String γ :=
  retryLoop attempts retries 0 none

/-- Camera EXIF metadata (`ExifData`). -/
structure ExifData where
  focalLengthMm : Option ℚ := none
  aperture : Option ℚ := none
  sensorSize : Option String := none
  iso : Option ℤ := none
  deriving DecidableEq, Repr

/-- Output schema of the Uploader Agent (`UploaderOutput`). -/
structure UploaderOutput where
  videoId : String
  framesPath : String
  frameCount : ℕ
  fps : ℚ
  durationS : ℚ
  resolution : ℕ × ℕ
  exif : ExifData
  audioPath : Option String := none
  deriving Repr

/-- Complete pipeline execution result (`PipelineResult`); the
`retrieval_output` stage is not part of `run_pipeline` and stays
`none`. -/
structure PipelineResult where
  videoId : String
  uploaderOutput : Option UploaderOutput := none
  featureOutput : Option (FeatureOutput ℚ) := none
  heuristicOutput : Option (HeuristicOutput ℚ) := none
  metadataOutput : Option MetadataOutput := none
  instructionCard : Option InstructionCard := none
  error : Option String := none
  deriving Repr

/-- `Orchestrator.auto_complete_metadata`: clamp confidence and beat
alignment; rebuild the record only when a value changed. -/
def autoCompleteMetadata (metadata : MetadataOutput)
    (heuristicOutput : HeuristicOutput ℚ) : MetadataOutput :=
  let _ := heuristicOutput
  let confidence := max 0 (min 1 metadata.confidence)
  let beatAlignment := max 0 (min 1 metadata.beatAlignmentScore)
  if confidence ≠ metadata.confidence ∨
      beatAlignment ≠ metadata.beatAlignmentScore then
    { metadata with beatAlignmentScore := beatAlignment,
                    confidence := confidence }
  else metadata

/-- `Orchestrator.run_pipeline`, with each stage's outcome (after its
retries) and the JSON-schema validator's verdict supplied as oracles.
Each stage failure is caught by the surrounding `except` block, which
stores the message in `error` and returns the result accumulated so
far; the confidence gate at the end is computed and logged but does not
influence the returned result. -/
def runPipeline (cfg : PipelineConfig) (taskId : String)
    (stUploader : Except String UploaderOutput)
    (stFeature : UploaderOutput → Except String (FeatureOutput ℚ))
    (stHeuristic : FeatureOutput ℚ → ℚ × ℚ →
      Except String (HeuristicOutput ℚ))
    (stMetadata : HeuristicOutput ℚ → ExifData → ℚ →
      Except String MetadataOutput)
    (stInstruction : MetadataOutput → Except String InstructionCard)
    (validatorOk : MetadataOutput → Bool) : PipelineResult :=
  let result : PipelineResult := { videoId := taskId }
  match stUploader with
  | Except.error e => { result with error := some e }
  | Except.ok u =>
    let result := { result with uploaderOutput := some u }
    match stFeature u with
    | Except.error e => { result with error := some e }
    | Except.ok f =>
      let result := { result with featureOutput := some f }
      match stHeuristic f (0, u.durationS) with
      | Except.error e => { result with error := some e }
      | Except.ok h =>
        let result := { result with heuristicOutput := some h }
        match stMetadata h u.exif f.opticalFlow.primaryDirectionDeg with
        | Except.error e => { result with error := some e }
        | Except.ok m0 =>
          let m :=
            if cfg.validateMetadata ∧ validatorOk m0 = false ∧
                cfg.autoCompleteMissing then
              autoCompleteMetadata m0 h
            else m0
          let result := { result with metadataOutput := some m }
          match stInstruction m with
          | Except.error e => { result with error := some e }
          | Except.ok card0 =>
            let card := { card0 with videoId := taskId }
            let result := { result with instructionCard := some card }
            let action := handleConfidence cfg m.confidence
            let _message := getConfidenceMessage action
            result

/-- C2: the confidence gate of the orchestrator.  For confidence in
`[0,1]`: PROCEED exactly above `0.75`, WARN exactly on `[0.55, 0.75]`,
MANUAL exactly below `0.55`; the message is `none` exactly for PROCEED
and the localized warning / manual-confirmation text otherwise; and the
gate never aborts the pipeline: whenever every stage succeeds,
`run_pipeline` returns the instruction card and no error, whatever the
confidence was. -/
theorem c2_confidence_gate (c : ℚ) (hc0 : 0 ≤ c) (hc1 : c ≤ 1) :
    (handleConfidence .default c = ConfidenceAction.proceed ↔ c > 75/100) ∧
    (handleConfidence .default c = ConfidenceAction.warn ↔
      55/100 ≤ c ∧ c ≤ 75/100) ∧
    (handleConfidence .default c = ConfidenceAction.manual ↔ c < 55/100) ∧
    (getConfidenceMessage (handleConfidence .default c) = none ↔
      handleConfidence .default c = ConfidenceAction.proceed) ∧
    (handleConfidence .default c = ConfidenceAction.warn →
      getConfidenceMessage (handleConfidence .default c) =
        some ("请尝试并拍摄两条版本")) ∧
    (handleConfidence .default c = ConfidenceAction.manual →
      getConfidenceMessage (handleConfidence .default c) =
        some ("置信度较低，建议人工确认后再执行")) ∧
    (∀ (taskId : String) (stU : Except String UploaderOutput)
      (stF : UploaderOutput → Except String (FeatureOutput ℚ))
      (stH : FeatureOutput ℚ → ℚ × ℚ → Except String (HeuristicOutput ℚ))
      (stM : HeuristicOutput ℚ → ExifData → ℚ →
        Except String MetadataOutput)
      (stI : MetadataOutput → Except String InstructionCard)
      (vOk : MetadataOutput → Bool) (u : UploaderOutput)
      (f : FeatureOutput ℚ) (h : HeuristicOutput ℚ) (m : MetadataOutput)
      (card : InstructionCard),
      stU = Except.ok u → stF u = Except.ok f →
      stH f (0, u.durationS) = Except.ok h →
      stM h u.exif f.opticalFlow.primaryDirectionDeg = Except.ok m →
      (∀ m' : MetadataOutput, stI m' = Except.ok card) →
      (runPipeline .default taskId stU stF stH stM stI vOk).instructionCard =
          some { card with videoId := taskId } ∧
        (runPipeline .default taskId stU stF stH stM stI vOk).error = none) := by
  have hgate : handleConfidence .default c =
      (if c > 75/100 then ConfidenceAction.proceed
       else if c ≥ 55/100 then ConfidenceAction.warn
       else ConfidenceAction.manual) := rfl
  refine ⟨?_, ?_, ?_, ?_, ?_, ?_, ?_⟩
  · rw [hgate]; split_ifs with h1 h2 <;> simp_all <;> linarith
  · rw [hgate]; split_ifs with h1 h2
    · constructor
      · intro hx; exact absurd hx (by decide)
      · intro hx; exact absurd hx.2 (not_le.mpr h1)
    · constructor
      · intro _; exact ⟨h2, not_lt.mp h1⟩
      · intro _; rfl
    · constructor
      · intro hx; exact absurd hx (by decide)
      · intro hx; exact absurd hx.1 h2
  · rw [hgate]; split_ifs with h1 h2 <;> simp_all <;> linarith
  · rw [hgate]; split_ifs with h1 h2 <;> simp [getConfidenceMessage]
  · intro hw; rw [hw]; rfl
  · intro hw; rw [hw]; rfl
  · intro taskId stU stF stH stM stI vOk u f h m card hu hf hh hm hi
    subst hu
    unfold runPipeline
    simp only [hf, hh, hm, hi]
    exact ⟨trivial, trivial⟩

/-- Witness stage data for C2 and C9. -/
def wUploader : UploaderOutput :=
  ⟨"v", "frames", 10, 30, 2, (640, 360), {}, none⟩

/-- Witness feature output (empty flow and tracking). -/
def wFeature : FeatureOutput ℚ :=
  ⟨"v", ⟨3, 0, []⟩, ⟨[], [], []⟩, none⟩

/-- Witness heuristic output. -/
def wHeuristic : HeuristicOutput ℚ := ⟨"v", (0, 2), 3, 0, 1/2, 0, 1/2⟩

/-- Witness instruction card. -/
def wCard : InstructionCard :=
  ⟨"unknown", generatePrimary .default c8Meta, generateExplain c8Meta,
    generateAdvanced .default c8Meta⟩

/-- Witness for C2 at confidence `0.6` and an all-success pipeline. -/
theorem c2_confidence_gate_witness :
    (handleConfidence .default (6/10) = ConfidenceAction.warn ↔
      55/100 ≤ (6/10 : ℚ) ∧ (6/10 : ℚ) ≤ 75/100) ∧
    (runPipeline .default "t" (Except.ok wUploader)
        (fun _ => Except.ok wFeature) (fun _ _ => Except.ok wHeuristic)
        (fun _ _ _ => Except.ok c8Meta) (fun _ => Except.ok wCard)
        (fun _ => true)).instructionCard =
      some { wCard with videoId := "t" } ∧
    (runPipeline .default "t" (Except.ok wUploader)
        (fun _ => Except.ok wFeature) (fun _ _ => Except.ok wHeuristic)
        (fun _ _ _ => Except.ok c8Meta) (fun _ => Except.ok wCard)
        (fun _ => true)).error = none := by
  have h := c2_confidence_gate (6/10) (by norm_num) (by norm_num)
  refine ⟨h.2.1, ?_⟩
  exact h.2.2.2.2.2.2 "t" (Except.ok wUploader)
    (fun _ => Except.ok wFeature) (fun _ _ => Except.ok wHeuristic)
    (fun _ _ _ => Except.ok c8Meta) (fun _ => Except.ok wCard)
    (fun _ => true) wUploader wFeature wHeuristic c8Meta wCard
    rfl rfl rfl rfl (fun _ => rfl)


/-- A non-retryable failure at attempt `k` (after `k` retryable ones)
propagates its message out of the retry loop. -/
theorem retryLoop_nonretryable {γ : Type}
    (attempts : ℕ → Except StageError γ) (k : ℕ) :
    ∀ (fuel i : ℕ) (last : Option String) (msg : String), k < fuel →
    (∀ j < k, ∃ mj, attempts (i + j) = Except.error ⟨true, mj⟩) →
    attempts (i + k) = Except.error ⟨false, msg⟩ →
    retryLoop attempts fuel i last = Except.error msg := by
  induction k with
  | zero =>
    intro fuel i last msg hk _ hbad
    obtain ⟨f, rfl⟩ := Nat.exists_eq_add_of_lt hk
    rw [retryLoop]
    rw [show i + 0 = i from rfl] at hbad
    rw [hbad]
    rfl
  | succ k ih =>
    intro fuel i last msg hk hretry hbad
    obtain ⟨f, rfl⟩ := Nat.exists_eq_add_of_lt hk
    rw [retryLoop]
    obtain ⟨m0, hm0⟩ := hretry 0 (Nat.succ_pos k)
    rw [show i + 0 = i from rfl] at hm0
    rw [hm0]
    simp only [if_pos rfl]
    refine ih (k + 1 + f) (i + 1) (some m0) msg (by omega) ?_ ?_
    · intro j hj
      obtain ⟨mj, hmj⟩ := hretry (j + 1) (by omega)
      exact ⟨mj, by rw [show i + 1 + j = i + (j + 1) by omega]; exact hmj⟩
    · rw [show i + 1 + k = i + (k + 1) by omega]
      exact hbad

/-- When every available attempt fails retryably, the retry loop ends in
an error (the last retryable message, or the generic one). -/
theorem retryLoop_exhausts {γ : Type}
    (attempts : ℕ → Except StageError γ) :
    ∀ (fuel i : ℕ) (last : Option String),
    (∀ j < fuel, ∃ mj, attempts (i + j) = Except.error ⟨true, mj⟩) →
    ∃ msg, retryLoop attempts fuel i last = Except.error msg := by
  intro fuel
  induction fuel with
  | zero => intro i last _; exact ⟨_, rfl⟩
  | succ f ih =>
    intro i last hall
    obtain ⟨m0, hm0⟩ := hall 0 (Nat.succ_pos f)
    rw [show i + 0 = i from rfl] at hm0
    rw [retryLoop, hm0]
    simp only [if_pos rfl]
    refine ih (i + 1) (some m0) ?_
    intro j hj
    obtain ⟨mj, hmj⟩ := hall (j + 1) (by omega)
    exact ⟨mj, by rw [show i + 1 + j = i + (j + 1) by omega]; exact hmj⟩

/-- C9: the pipeline never raises and keeps partial results.
`retry_with_backoff` turns a non-retryable failure (preceded by any
retryable ones) into an immediate error and turns exhaustion of all
retries into the last retryable error; and whichever stage of
`run_pipeline` fails, the returned `PipelineResult` carries the error
message and retains exactly the outputs of the stages already
completed. -/
theorem c9_pipeline_failure_keeps_partial_results :
    (∀ {γ : Type} (attempts : ℕ → Except StageError γ)
      (retries k : ℕ) (msg : String), k < retries →
      (∀ j < k, ∃ mj, attempts j = Except.error ⟨true, mj⟩) →
      attempts k = Except.error ⟨false, msg⟩ →
      retryWithBackoff retries attempts = Except.error msg) ∧
    (∀ {γ : Type} (attempts : ℕ → Except StageError γ) (retries : ℕ),
      (∀ j < retries, ∃ mj, attempts j = Except.error ⟨true, mj⟩) →
      ∃ msg, retryWithBackoff retries attempts = Except.error msg) ∧
    (∀ (cfg : PipelineConfig) (taskId : String) stU stF stH stM stI vOk
      (e : String), stU = Except.error e →
      runPipeline cfg taskId stU stF stH stM stI vOk =
        { videoId := taskId, error := some e }) ∧
    (∀ (cfg : PipelineConfig) (taskId : String) stU stF stH stM stI vOk
      (u : UploaderOutput) (e : String),
      stU = Except.ok u → stF u = Except.error e →
      runPipeline cfg taskId stU stF stH stM stI vOk =
        { videoId := taskId, uploaderOutput := some u, error := some e }) ∧
    (∀ (cfg : PipelineConfig) (taskId : String) stU stF stH stM stI vOk
      (u : UploaderOutput) (f : FeatureOutput ℚ) (e : String),
      stU = Except.ok u → stF u = Except.ok f →
      stH f ((0 : ℚ), u.durationS) = Except.error e →
      runPipeline cfg taskId stU stF stH stM stI vOk =
        { videoId := taskId, uploaderOutput := some u,
          featureOutput := some f, error := some e }) ∧
    (∀ (cfg : PipelineConfig) (taskId : String) stU stF stH stM stI vOk
      (u : UploaderOutput) (f : FeatureOutput ℚ) (h : HeuristicOutput ℚ)
      (e : String),
      stU = Except.ok u → stF u = Except.ok f →
      stH f ((0 : ℚ), u.durationS) = Except.ok h →
      stM h u.exif f.opticalFlow.primaryDirectionDeg = Except.error e →
      runPipeline cfg taskId stU stF stH stM stI vOk =
        { videoId := taskId, uploaderOutput := some u,
          featureOutput := some f, heuristicOutput := some h,
          error := some e }) ∧
    (∀ (cfg : PipelineConfig) (taskId : String) stU stF stH stM stI vOk
      (u : UploaderOutput) (f : FeatureOutput ℚ) (h : HeuristicOutput ℚ)
      (m0 : MetadataOutput) (e : String),
      stU = Except.ok u → stF u = Except.ok f →
      stH f ((0 : ℚ), u.durationS) = Except.ok h →
      stM h u.exif f.opticalFlow.primaryDirectionDeg = Except.ok m0 →
      stI (if cfg.validateMetadata ∧ vOk m0 = false ∧
            cfg.autoCompleteMissing then autoCompleteMetadata m0 h
          else m0) = Except.error e →
      runPipeline cfg taskId stU stF stH stM stI vOk =
        { videoId := taskId, uploaderOutput := some u,
          featureOutput := some f, heuristicOutput := some h,
          metadataOutput :=
            some (if cfg.validateMetadata ∧ vOk m0 = false ∧
                cfg.autoCompleteMissing then autoCompleteMetadata m0 h
              else m0),
          error := some e }) := by
  refine ⟨?_, ?_, ?_, ?_, ?_, ?_, ?_⟩
  · intro γ attempts retries k msg hk hretry hbad
    exact retryLoop_nonretryable attempts k retries 0 none msg hk
      (by simpa using hretry) (by simpa using hbad)
  · intro γ attempts retries hall
    exact retryLoop_exhausts attempts retries 0 none (by simpa using hall)
  · intro cfg taskId stU stF stH stM stI vOk e hu
    subst hu
    rfl
  · intro cfg taskId stU stF stH stM stI vOk u e hu hf
    subst hu
    unfold runPipeline
    simp only [hf]
  · intro cfg taskId stU stF stH stM stI vOk u f e hu hf hh
    subst hu
    unfold runPipeline
    simp only [hf, hh]
  · intro cfg taskId stU stF stH stM stI vOk u f h e hu hf hh hm
    subst hu
    unfold runPipeline
    simp only [hf, hh, hm]
  · intro cfg taskId stU stF stH stM stI vOk u f h m0 e hu hf hh hm hi
    subst hu
    unfold runPipeline
    simp only [hf, hh, hm, hi]

/-- Witness attempts for C9: one retryable failure then a non-retryable
one. -/
def wAttempts : ℕ → Except StageError ℕ :=
  fun i => if i = 0 then Except.error ⟨true, "transient"⟩
    else Except.error ⟨false, "fatal"⟩

/-- Witness attempts for C9 exhaustion: always retryable. -/
def wAttemptsRetry : ℕ → Except StageError ℕ :=
  fun _ => Except.error ⟨true, "transient"⟩

/-- Witness for C9: the retry wrapper surfaces the non-retryable message
after one retryable failure, errors out after exhausting all retries,
and a pipeline whose feature stage fails keeps the uploader output and
carries the error. -/
theorem c9_pipeline_failure_keeps_partial_results_witness :
    retryWithBackoff 3 wAttempts = Except.error "fatal" ∧
    (∃ msg, retryWithBackoff 2 wAttemptsRetry = Except.error msg) ∧
    runPipeline .default "t" (Except.ok wUploader)
        (fun _ => Except.error "feature blew up")
        (fun _ _ => Except.ok wHeuristic)
        (fun _ _ _ => Except.ok c8Meta)
        (fun _ => Except.ok wCard) (fun _ => true) =
      { videoId := "t", uploaderOutput := some wUploader,
        error := some "feature blew up" } := by
  refine ⟨?_, ?_, ?_⟩
  · refine c9_pipeline_failure_keeps_partial_results.1 wAttempts 3 1
      "fatal" (by norm_num) ?_ (by rfl)
    intro j hj
    interval_cases j
    exact ⟨"transient", rfl⟩
  · exact c9_pipeline_failure_keeps_partial_results.2.1 wAttemptsRetry 2
      (fun j hj => ⟨"transient", rfl⟩)
  · exact c9_pipeline_failure_keeps_partial_results.2.2.2.1 .default "t"
      (Except.ok wUploader) (fun _ => Except.error "feature blew up")
      (fun _ _ => Except.ok wHeuristic) (fun _ _ _ => Except.ok c8Meta)
      (fun _ => Except.ok wCard) (fun _ => true) wUploader
      "feature blew up" rfl rfl


/-! ## Heuristic analyzer: full `process`
(`src/agents/heuristic_analyzer.py`) -/

/-- Configuration for the Heuristic Analyzer Agent
(`HeuristicAnalyzerConfig`). -/
structure HeuristicAnalyzerConfig (α : Type) [LinearOrderedField α] where
  beatAlignmentWindowS : α := 1/10
  smoothnessNormalizationFactor : α := 100

/-- The default `HeuristicAnalyzerConfig()` over the reals. -/
noncomputable def HeuristicAnalyzerConfig.default :
    HeuristicAnalyzerConfig ℝ := {}

/-- `calculate_avg_motion`: the validated (non-negative) optical-flow
speed; `duration` is accepted but unused, as in the code. -/
def calculateAvgMotion {α : Type} [LinearOrderedField α]
    (opticalFlow : OpticalFlowData α) (duration : α) : α :=
  let _ := duration
  max 0 opticalFlow.avgSpeedPxS

/-- `calculate_subject_occupancy`. -/
def calculateSubjectOccupancy {α : Type} [LinearOrderedField α]
    (bboxSequence : List (BBox α)) : α :=
  if bboxSequence = [] then 0
  else
    let areas := bboxSequence.map BBox.area
    if areas = [] then 0
    else max 0 (min 1 (areas.sum / areas.length))

/-- The minimum of `|m - b|` over a nonempty list of beats (the
`float(inf)` fold of the Python loop). -/
def minAbsDist {α : Type} [LinearOrderedField α] (m : α) : List α → α
  | [] => 0
  | b :: bs => (bs.map (fun x => |m - x|)).foldl min |m - b|

/-- `calculate_beat_alignment`. -/
def calculateBeatAlignment {α : Type} [LinearOrderedField α]
    (cfg : HeuristicAnalyzerConfig α) (motionTimestamps : List α)
    (beatTimestamps : List α) : α :=
  if motionTimestamps = [] ∨ beatTimestamps = [] then 1/2
  else
    let window := cfg.beatAlignmentWindowS
    let alignmentScores := motionTimestamps.map (fun motionTime =>
      let minDistance := minAbsDist motionTime beatTimestamps
      if minDistance ≤ window then 1 - minDistance / window else 0)
    if alignmentScores = [] then 1/2
    else max 0 (min 1 (alignmentScores.sum / alignmentScores.length))

/-- Differences of consecutive entries (velocities → accelerations). -/
def consecutiveDiffs {α : Type} [LinearOrderedField α] : List α → List α
  | [] => []
  | [_] => []
  | a :: b :: rest => (b - a) :: consecutiveDiffs (b :: rest)

/-- `calculate_motion_smoothness`: variance of the acceleration of the
flow-vector magnitudes, mapped through `exp(-variance / factor)` and
clamped; `0.5` when fewer than three flow vectors are available. -/
noncomputable def calculateMotionSmoothness
    (cfg : HeuristicAnalyzerConfig ℝ) (opticalFlow : OpticalFlowData ℝ) :
    ℝ :=
  let flowVectors := opticalFlow.flowVectors
  if flowVectors.length < 3 then 1/2
  else
    let velocities := flowVectors.map
      (fun v => Real.sqrt (v.1 * v.1 + v.2 * v.2))
    if velocities.length < 3 then 1/2
    else
      let accelerations := consecutiveDiffs velocities
      if accelerations = [] then 1/2
      else
        let meanAccel := accelerations.sum / accelerations.length
        let variance := (accelerations.map
          (fun a => (a - meanAccel) * (a - meanAccel))).sum /
          accelerations.length
        let smoothness :=
          Real.exp (-variance / cfg.smoothnessNormalizationFactor)
        max 0 (min 1 smoothness)

/-- `_extract_motion_timestamps`. -/
noncomputable def extractMotionTimestamps (opticalFlow : OpticalFlowData ℝ)
    (bboxSequence : List (BBox ℝ)) (timestamps : List ℝ)
    (thresholdFactor : ℝ) : List ℝ :=
  let _ := bboxSequence
  let flowVectors := opticalFlow.flowVectors
  if flowVectors.length < 2 then []
  else
    let magnitudes := flowVectors.map
      (fun v => Real.sqrt (v.1 * v.1 + v.2 * v.2))
    if magnitudes = [] then []
    else
      let avgMagnitude := magnitudes.sum / magnitudes.length
      let threshold := avgMagnitude * thresholdFactor
      if timestamps = [] then []
      else
        let step := max 1 (timestamps.length / magnitudes.length)
        magnitudes.enum.filterMap (fun im =>
          if im.2 > threshold then
            some (timestamps.getD (min (im.1 * step)
              (timestamps.length - 1)) 0)
          else none)

/-- `HeuristicAnalyzerAgent.process`: compute the five indicators, build
the output, and raise `ValueError` when `is_valid` fails. -/
noncomputable def processHeuristic (cfg : HeuristicAnalyzerConfig ℝ)
    (featureOutput : FeatureOutput ℝ) (timeRange : ℝ × ℝ) :
    Except String (HeuristicOutput ℝ) :=
  let audioBeats := featureOutput.audioBeats.getD []
  let avgMotionPxPerS := calculateAvgMotion featureOutput.opticalFlow
    (timeRange.2 - timeRange.1)
  let framePctChange := calculateFramePctChange
    featureOutput.subjectTracking.bboxSequence
  let motionSmoothness := calculateMotionSmoothness cfg
    featureOutput.opticalFlow
  let subjectOccupancy := calculateSubjectOccupancy
    featureOutput.subjectTracking.bboxSequence
  let motionTimestamps := extractMotionTimestamps featureOutput.opticalFlow
    featureOutput.subjectTracking.bboxSequence
    featureOutput.subjectTracking.timestamps (3/2)
  let beatAlignmentScore := calculateBeatAlignment cfg motionTimestamps
    audioBeats
  let output : HeuristicOutput ℝ :=
    ⟨featureOutput.videoId, timeRange, avgMotionPxPerS, framePctChange,
      motionSmoothness, subjectOccupancy, beatAlignmentScore⟩
  if output.isValid then Except.ok output
  else Except.error
    ("Invalid HeuristicOutput: indicators out of valid ranges.")

/-- The clamp `max 0 (min 1 x)` lies in `[0, 1]`. -/
theorem clamp01_mem {α : Type} [LinearOrderedField α] (x : α) :
    0 ≤ max 0 (min 1 x) ∧ max 0 (min 1 x) ≤ 1 :=
  ⟨le_max_left 0 _, max_le zero_le_one (min_le_left 1 x)⟩

/-- `calculate_frame_pct_change` always lands in `[0, 1]`. -/
theorem calculateFramePctChange_mem {α : Type} [LinearOrderedField α]
    (bs : List (BBox α)) :
    0 ≤ calculateFramePctChange bs ∧ calculateFramePctChange bs ≤ 1 := by
  simp only [calculateFramePctChange]
  split_ifs <;> first | exact ⟨le_refl 0, zero_le_one⟩ | exact clamp01_mem _

/-- `calculate_subject_occupancy` always lands in `[0, 1]`. -/
theorem calculateSubjectOccupancy_mem {α : Type} [LinearOrderedField α]
    (bs : List (BBox α)) :
    0 ≤ calculateSubjectOccupancy bs ∧ calculateSubjectOccupancy bs ≤ 1 := by
  simp only [calculateSubjectOccupancy]
  split_ifs <;> first | exact ⟨le_refl 0, zero_le_one⟩ | exact clamp01_mem _

/-- `calculate_beat_alignment` always lands in `[0, 1]`. -/
theorem calculateBeatAlignment_mem {α : Type} [LinearOrderedField α]
    (cfg : HeuristicAnalyzerConfig α) (ms bs : List α) :
    0 ≤ calculateBeatAlignment cfg ms bs ∧
      calculateBeatAlignment cfg ms bs ≤ 1 := by
  simp only [calculateBeatAlignment]
  split_ifs <;>
    first
    | exact ⟨by norm_num, by norm_num⟩
    | exact clamp01_mem _

/-- `calculate_motion_smoothness` always lands in `[0, 1]`. -/
theorem calculateMotionSmoothness_mem (cfg : HeuristicAnalyzerConfig ℝ)
    (opticalFlow : OpticalFlowData ℝ) :
    0 ≤ calculateMotionSmoothness cfg opticalFlow ∧
      calculateMotionSmoothness cfg opticalFlow ≤ 1 := by
  simp only [calculateMotionSmoothness]
  split_ifs <;>
    first
    | exact ⟨by norm_num, by norm_num⟩
    | exact clamp01_mem _

/-- C6: `process` is total and well-ranged.  For any feature output:
with a valid time range (`0 <= start < end`) it returns a
`HeuristicOutput` whose scalars all lie in their declared domains (so
the indicator values themselves can never cause the error), and with an
invalid time range (`start < 0` or `start >= end`) it raises
`ValueError`. -/
theorem c6_process_ranges_and_validation (cfg : HeuristicAnalyzerConfig ℝ)
    (fo : FeatureOutput ℝ) (tr : ℝ × ℝ) :
    (0 ≤ tr.1 ∧ tr.1 < tr.2 →
      ∃ out, processHeuristic cfg fo tr = Except.ok out ∧
        out.timeRange = tr ∧
        0 ≤ out.avgMotionPxPerS ∧
        0 ≤ out.framePctChange ∧ out.framePctChange ≤ 1 ∧
        0 ≤ out.motionSmoothness ∧ out.motionSmoothness ≤ 1 ∧
        0 ≤ out.subjectOccupancy ∧ out.subjectOccupancy ≤ 1 ∧
        0 ≤ out.beatAlignmentScore ∧ out.beatAlignmentScore ≤ 1) ∧
    (tr.1 < 0 ∨ tr.2 ≤ tr.1 →
      ∃ msg, processHeuristic cfg fo tr = Except.error msg) := by
  have havg : 0 ≤ calculateAvgMotion fo.opticalFlow (tr.2 - tr.1) :=
    le_max_left 0 _
  have hfpc := calculateFramePctChange_mem fo.subjectTracking.bboxSequence
  have hsm := calculateMotionSmoothness_mem cfg fo.opticalFlow
  have hocc := calculateSubjectOccupancy_mem fo.subjectTracking.bboxSequence
  have hbeat := calculateBeatAlignment_mem cfg
    (extractMotionTimestamps fo.opticalFlow
      fo.subjectTracking.bboxSequence fo.subjectTracking.timestamps (3/2))
    (fo.audioBeats.getD [])
  simp only [processHeuristic]
  constructor
  · rintro ⟨ht0, ht1⟩
    rw [if_pos]
    · exact ⟨_, rfl, rfl, havg, hfpc.1, hfpc.2, hsm.1, hsm.2, hocc.1,
        hocc.2, hbeat.1, hbeat.2⟩
    · exact ⟨havg, hfpc.1, hfpc.2, hsm.1, hsm.2, hocc.1, hocc.2, hbeat.1,
        hbeat.2, ht0, ht1⟩
  · intro hbad
    rw [if_neg]
    · exact ⟨_, rfl⟩
    · unfold HeuristicOutput.isValid
      simp only
      rintro ⟨_, _, _, _, _, _, _, _, _, h0, h1⟩
      rcases hbad with hb | hb
      · exact absurd h0 (not_le.mpr hb)
      · exact absurd h1 (not_lt.mpr hb)

/-- Witness feature output for C6 over the reals (fewer than three flow
vectors, empty tracking). -/
noncomputable def wFeatureR : FeatureOutput ℝ :=
  ⟨"v", ⟨3, 0, []⟩, ⟨[], [], []⟩, none⟩

/-- Witness for C6: on `wFeatureR`, the valid range `(0, 1)` yields a
well-ranged output and the invalid range `(1, 1)` yields the
`ValueError`. -/
theorem c6_process_ranges_and_validation_witness :
    (∃ out, processHeuristic .default wFeatureR (0, 1) = Except.ok out ∧
      out.timeRange = ((0 : ℝ), (1 : ℝ)) ∧
      0 ≤ out.avgMotionPxPerS ∧
      0 ≤ out.framePctChange ∧ out.framePctChange ≤ 1 ∧
      0 ≤ out.motionSmoothness ∧ out.motionSmoothness ≤ 1 ∧
      0 ≤ out.subjectOccupancy ∧ out.subjectOccupancy ≤ 1 ∧
      0 ≤ out.beatAlignmentScore ∧ out.beatAlignmentScore ≤ 1) ∧
    (∃ msg, processHeuristic .default wFeatureR (1, 1) =
      Except.error msg) :=
  ⟨(c6_process_ranges_and_validation .default wFeatureR (0, 1)).1
      (by norm_num),
    (c6_process_ranges_and_validation .default wFeatureR (1, 1)).2
      (by norm_num)⟩

end FlowDecompose
